import Mathlib

/-!
Shallow embedding of the stage/session state machine of the AI ticket
chatbot (working/backend: utils.py, creating_part/create.py,
editing_part/edit.py, api_call.py), together with theorems about the
routing behaviour that the specification describes.

Conventions of the embedding:

* `StageManager` mirrors the Python class of the same name in
  `working/backend/utils.py`: the mutable fields that routing reads or
  writes (`current_stage`, `previous_stage`, `pending_ticket_data`,
  `pending_ci_data`, `stage_history`).  The fixed dictionary
  `stage_contexts` only matters for its key set, embedded as
  `validStages`.
* Python dictionaries whose values are strings are embedded as
  association lists `FieldMap`; the heterogeneous dictionary stored in
  `pending_ticket_data` (strings, a ticket record, a nested update map)
  is embedded as `PyDict` over the tagged value type `PyVal`.
* The external ticketing API functions of `api_call.py` are black boxes
  at the routing layer: an `ApiEnv` record of functions with the same
  Option-result signatures the Python functions have (they catch all of
  their own exceptions and return None on failure).  `make_api_request`
  and `get_ci_with_sn` are additionally embedded in full (retry loop and
  response shaping) over an oracle of HTTP outcomes, for the claims that
  are about the retry behaviour itself.
* String literals are embedded exactly as the Python parser reads them
  from each file.  `utils.py`, `create.py` and
  `configuration/config.py` — the prompt file that fixes the labels the
  classifier emits — spell the Vietnamese intent labels in proper UTF-8
  ("tạo ticket", "đúng", "thoát", ...), while the repository's
  `edit.py` stores every non-ASCII literal double-encoded (its parsed
  strings are e.g. "tho√°t" where the rest of the system says "thoát",
  and "ƒë√∫ng" where it says "đúng").  The embedding keeps those
  corrupted literals byte for byte; as a consequence the edit-flow
  handlers' label comparisons never match the labels the classifier and
  the other modules produce, which several theorems below exhibit.
-/

namespace TicketBot

/-- Python `str.strip()` (whitespace removed at both ends), implemented
on the character list so that it evaluates inside the kernel. -/
def pyStrip (s : String) : String :=
  ⟨((s.data.dropWhile Char.isWhitespace).reverse.dropWhile
      Char.isWhitespace).reverse⟩

/-- Python `str.lower()` (ASCII case mapping), implemented on the
character list so that it evaluates inside the kernel. -/
def pyLower (s : String) : String := ⟨s.data.map Char.toLower⟩

/-- Python `str.upper()` (ASCII case mapping), implemented on the
character list so that it evaluates inside the kernel. -/
def pyUpper (s : String) : String := ⟨s.data.map Char.toUpper⟩

/-- Python `pat in hay` substring test (`'' in s` is `True`). -/
def strContains (hay pat : String) : Bool :=
  if pat.isEmpty then true else (hay.splitOn pat).length != 1

/-- A Python `dict[str, str]` (classifier payloads, update maps),
insertion-ordered. -/
abbrev FieldMap := List (String × String)

/-- `m.get(k, "")` on a string dictionary. -/
def fmGet (m : FieldMap) (k : String) : String :=
  match m.find? (fun p => p.1 == k) with
  | some p => p.2
  | none => ""

/-- `k in m` on a string dictionary. -/
def fmHas (m : FieldMap) (k : String) : Bool :=
  (m.find? (fun p => p.1 == k)).isSome

/-- A configuration item as returned by the CI lookup: the dictionary keys
the handlers read, each possibly absent (`None`-defaulted `get` calls in
the source are embedded with `Option.getD`). -/
structure CI where
  SerialNum : Option String
  serial_number : Option String
  Name : Option String
  name : Option String
  Location : Option String
  location : Option String
deriving Repr, DecidableEq

/-- `ci.get('SerialNum', ci.get('serial_number', ''))`. -/
def CI.getSerial (c : CI) : String :=
  c.SerialNum.getD (c.serial_number.getD "")

/-- `ci.get('Name', ci.get('name', 'Unknown Device'))`. -/
def CI.getDeviceName (c : CI) : String :=
  c.Name.getD (c.name.getD "Unknown Device")

/-- A ticket as returned by the ticket lookups: the dictionary keys the
handlers read. -/
structure Ticket where
  ticketid : Option String
  id : Option String
  status : Option String
  summary : Option String
deriving Repr, DecidableEq

/-- One value of the heterogeneous dictionary held in
`pending_ticket_data`: a string, a ticket record (`ticket_info`), or a
nested string map (`update_data`). -/
inductive PyVal where
  | str (s : String)
  | ticket (t : Ticket)
  | fmap (m : FieldMap)
deriving Repr, DecidableEq

/-- The heterogeneous Python dictionary stored by `store_ticket_data`. -/
abbrev PyDict := List (String × PyVal)

/-- `d.get(k)`. -/
def dGet? (d : PyDict) (k : String) : Option PyVal :=
  match d.find? (fun p => p.1 == k) with
  | some p => some p.2
  | none => none

/-- `k in d`. -/
def dHas (d : PyDict) (k : String) : Bool := (dGet? d k).isSome

/-- `d.get(k, default)` read as a string (the handlers only ever read
string-valued keys this way; a non-string value stands in for Python's
`str(value)` of a non-empty object). -/
def dGetStr (d : PyDict) (k dflt : String) : String :=
  match dGet? d k with
  | some (.str s) => s
  | some (.ticket _) => "ticketobject"
  | some (.fmap _) => "dictobject"
  | none => dflt

/-- `d[k] = v`: replace in place when the key exists, append otherwise
(Python dictionaries keep insertion order). -/
def dSet (d : PyDict) (k : String) (v : PyVal) : PyDict :=
  if dHas d k then d.map (fun p => if p.1 == k then (k, v) else p)
  else d ++ [(k, v)]

/-- The value the classifier's reply carries: either plain text or a
structured payload (the duck-typed `response_text` that the source tests
with `isinstance(response_text, dict)`). -/
inductive Resp where
  | s (text : String)
  | d (fields : FieldMap)
deriving Repr, DecidableEq

/-! ## StageManager (utils.py lines 33-157) -/

/-- The key set of `StageManager._initialize_stage_contexts`, i.e. the
fixed StageId set against which `switch_stage` validates. -/
def validStages : List String :=
  ["main", "create", "edit", "confirmation", "update_confirmation",
   "correct", "1_ci_data", "multiple_ci_data", "updating_ticket",
   "edit_confirmation"]

/-- The state of `StageManager` that routing reads and writes. -/
structure StageManager where
  current_stage : String
  previous_stage : Option String
  pending_ticket_data : Option PyDict
  pending_ci_data : Option (List CI)
  stage_history : List String
deriving Repr, DecidableEq

/-- The state of `StageManager.__init__`. -/
def StageManager.init : StageManager :=
  { current_stage := "main", previous_stage := none,
    pending_ticket_data := none, pending_ci_data := none,
    stage_history := ["main"] }

/-- `StageManager.switch_stage`: validated transition; an invalid target
leaves the state unchanged and reports failure. -/
def switch_stage (sm : StageManager) (new_stage : String) :
    StageManager × Bool :=
  if validStages.contains new_stage then
    ({ sm with previous_stage := some sm.current_stage,
               current_stage := new_stage,
               stage_history := sm.stage_history ++ [new_stage] }, true)
  else (sm, false)

/-- `StageManager.store_ticket_data`. -/
def store_ticket_data (sm : StageManager) (d : PyDict) : StageManager :=
  { sm with pending_ticket_data := some d }

/-- `StageManager.clear_ticket_data`. -/
def clear_ticket_data (sm : StageManager) : StageManager :=
  { sm with pending_ticket_data := none }

/-- `StageManager.store_ci_data`. -/
def store_ci_data (sm : StageManager) (l : List CI) : StageManager :=
  { sm with pending_ci_data := some l }

/-- `StageManager.clear_ci_data`. -/
def clear_ci_data (sm : StageManager) : StageManager :=
  { sm with pending_ci_data := none }

/-- `StageManager.reset_to_main`: switch to main and clear both pending
records. -/
def reset_to_main (sm : StageManager) : StageManager :=
  clear_ci_data (clear_ticket_data (switch_stage sm "main").1)

/-- `StageManager.get_stored_ticket_data` followed by the truthiness test
every caller performs (`None` and the empty dictionary are both falsy). -/
def get_stored_ticket_data (sm : StageManager) : Option PyDict :=
  match sm.pending_ticket_data with
  | some d => if d.isEmpty then none else some d
  | none => none

/-- `StageManager.get_stored_ci_data` (returns `None` when the stored list
is absent or empty, since `[]` is falsy). -/
def get_stored_ci_data (sm : StageManager) : Option (List CI) :=
  match sm.pending_ci_data with
  | some l => if l.isEmpty then none else some l
  | none => none

/-! ## api_call.py: make_api_request and get_ci_with_sn -/

/-- `DEFAULT_TIMEOUT`, `MAX_RETRY_ATTEMPTS`, `RETRY_DELAY` of api_call.py. -/
def MAX_RETRY_ATTEMPTS : Nat := 3

def RETRY_DELAY : Nat := 1

/-- What one HTTP attempt can come back as, seen from the body of
`make_api_request`: a response with a status code and (parsed) body, or
one of the exception classes the source catches. -/
inductive HttpOutcome (α : Type) where
  | status (code : Nat) (body : α)
  | timeout
  | connError
  | reqError
  | otherExn
deriving Repr, DecidableEq

/-- `method.upper() in {GET, POST, PUT}` — the methods `make_api_request`
supports. -/
def methodSupported (method : String) : Bool :=
  pyUpper method == "GET" || pyUpper method == "POST" ||
    pyUpper method == "PUT"

/-- The `for attempt in range(max_retries + 1)` loop of
`make_api_request`, run over the oracle of per-attempt outcomes.
The recursion is on the list of remaining attempt indices.  Result:
(returned value, number of attempts actually made, the sleeps performed
between attempts, in seconds).  A 200 returns the body; a 404 returns
`none` at once; any other status, a timeout, a connection error or a
request exception sleeps `RETRY_DELAY * (attempt + 1)` and retries while
`attempt < max_retries`; an unexpected exception returns `none` at once;
an exhausted loop returns `none`. -/
def apiAttemptLoop (oracle : Nat → HttpOutcome α) (supported : Bool)
    (max_retries : Nat) : List Nat → Option α × Nat × List Nat
  | [] => (none, 0, [])
  | attempt :: rest =>
    if !supported then (none, 1, [])
    else
      match oracle attempt with
      | .status code body =>
        if code == 200 then (some body, 1, [])
        else if code == 404 then (none, 1, [])
        else if attempt < max_retries then
          let r := apiAttemptLoop oracle supported max_retries rest
          (r.1, r.2.1 + 1, RETRY_DELAY * (attempt + 1) :: r.2.2)
        else (none, 1, [])
      | .timeout =>
        if attempt < max_retries then
          let r := apiAttemptLoop oracle supported max_retries rest
          (r.1, r.2.1 + 1, RETRY_DELAY * (attempt + 1) :: r.2.2)
        else (none, 1, [])
      | .connError =>
        if attempt < max_retries then
          let r := apiAttemptLoop oracle supported max_retries rest
          (r.1, r.2.1 + 1, RETRY_DELAY * (attempt + 1) :: r.2.2)
        else (none, 1, [])
      | .reqError =>
        if attempt < max_retries then
          let r := apiAttemptLoop oracle supported max_retries rest
          (r.1, r.2.1 + 1, RETRY_DELAY * (attempt + 1) :: r.2.2)
        else (none, 1, [])
      | .otherExn => (none, 1, [])

/-- `make_api_request(url, method, json, timeout, max_retries)` of
api_call.py, with the network abstracted as an oracle from attempt index
to outcome.  Returns (value, attempts made, sleeps). -/
def make_api_request (oracle : Nat → HttpOutcome α) (method : String)
    (max_retries : Nat) : Option α × Nat × List Nat :=
  apiAttemptLoop oracle (methodSupported method) max_retries
    (List.range (max_retries + 1))

/-- An outcome on which `make_api_request` retries: any status other than
200 and 404, or a timeout / connection error / request exception. -/
def HttpOutcome.isTransientFailure : HttpOutcome α → Bool
  | .status code _ => code != 200 && code != 404
  | .timeout => true
  | .connError => true
  | .reqError => true
  | .otherExn => false

/-- The parsed body shape `get_ci_with_sn` distinguishes: a single
dictionary, a list, or anything else. -/
inductive CiBody where
  | dict (c : CI)
  | list (l : List CI)
  | other
deriving Repr, DecidableEq

/-- `get_ci_with_sn(serial_number)` of api_call.py over the HTTP oracle:
`None` for a blank serial or an unconfigured endpoint; otherwise the
`make_api_request` result shaped to a list (a dictionary becomes a
one-element list, `None` stays `None`, an unexpected shape becomes
`None`).  Also reports the attempts made and the sleeps, for the claims
about retrying. -/
def get_ci_with_sn (oracle : Nat → HttpOutcome CiBody)
    (endpointConfigured : Bool) (serial_number : String) :
    Option (List CI) × Nat × List Nat :=
  if (pyStrip serial_number).isEmpty then (none, 0, [])
  else if !endpointConfigured then (none, 0, [])
  else
    let r := make_api_request oracle "GET" MAX_RETRY_ATTEMPTS
    match r.1 with
    | none => (none, r.2.1, r.2.2)
    | some (.dict c) => (some [c], r.2.1, r.2.2)
    | some (.list l) => (some l, r.2.1, r.2.2)
    | some .other => (none, r.2.1, r.2.2)

/-- The result dictionary of a ticket update
(`{'response_code': ..., 'message': ...}`). -/
structure UpdResp where
  response_code : Nat
  message : String
deriving Repr, DecidableEq

/-- The ticket Gateway as the routing layer sees it: the api_call.py
functions as black boxes with their Option-result signatures (each
catches all of its own exceptions and returns `None` on any failure). -/
structure ApiEnv where
  get_ci_with_sn : String → Option (List CI)
  get_all_ticket_for_sn : String → Option (List Ticket)
  post_create_ticket : String → String → Option String
  get_ticket_by_id : String → Option Ticket
  post_update_ticket : String → FieldMap → Option UpdResp

/-! ## creating_part/create.py -/

/-- What a stage handler returns plus the session state it leaves behind
(the Python handlers mutate `stage_manager` in place and return
`(response, summary)`). -/
structure RouteResult where
  sm : StageManager
  response : Resp
  summary : String
deriving Repr, DecidableEq

/-- `FIELD_TRANSLATION` of create.py. -/
def FIELD_TRANSLATION : List (String × String) :=
  [("serial_number", "S/N hoặc ID thiết bị"),
   ("device_type", "Loại thiết bị"),
   ("problem_description", "Nội dung sự cố")]

/-- `FIELD_TRANSLATION.get(field, field)`. -/
def fieldTranslationGet (field : String) : String :=
  match FIELD_TRANSLATION.find? (fun p => p.1 == field) with
  | some p => p.2
  | none => field

/-- `REQUIRED_TICKET_FIELDS` of create.py. -/
def REQUIRED_TICKET_FIELDS : List String :=
  ["serial_number", "device_type", "problem_description"]

/-- The re-prompt `_handle_confirmation_correct` / `_handle_confirmation_wrong`
give when no ticket data is stored. -/
def noTicketDataPrompt : String :=
  "Cảm ơn bạn! Tuy nhiên mình cần bạn cung cấp thông tin cụ thể " ++
  "để tạo ticket: S/N hoặc ID thiết bị và nội dung sự cố. " ++
  "Ví dụ: '12345, máy in hỏng'"

/-- `_handle_confirmation_correct` (create.py): keep the data and report
"đúng" when something is stored, else re-prompt with "tạo ticket". -/
def handle_confirmation_correct (sm : StageManager) : RouteResult :=
  match get_stored_ticket_data sm with
  | some _ =>
    ⟨sm, .s "Cảm ơn bạn đã xác nhận. Hệ thống sẽ tiến hành tạo ticket ngay.",
     "đúng"⟩
  | none => ⟨sm, .s noTicketDataPrompt, "tạo ticket"⟩

/-- `_handle_confirmation_wrong` (create.py): clear the stored data when
there is some, else re-prompt. -/
def handle_confirmation_wrong (sm : StageManager) : RouteResult :=
  match get_stored_ticket_data sm with
  | some _ =>
    ⟨clear_ticket_data sm,
     .s ("Cảm ơn bạn đã phản hồi. Vui lòng cung cấp lại thông tin " ++
         "chính xác để mình tạo ticket mới cho bạn."),
     "tạo ticket"⟩
  | none => ⟨sm, .s noTicketDataPrompt, "tạo ticket"⟩

/-- `_handle_switch_to_edit` (create.py). -/
def switchToEditMsg : String :=
  "Đã chuyển sang chế độ sửa ticket cho bạn. " ++
  "Bạn muốn sửa nội dung ticket nào? " ++
  "Vui lòng cung cấp thông tin ticket ID."

/-- `_handle_exit_request` (create.py). -/
def createExitMsg : String :=
  "Dạ vâng, vậy khi nào bạn có nhu cầu tạo ticket " ++
  "thì mình hỗ trợ bạn nhé. Chào tạm biệt bạn"

/-- `_normalize_ticket_data` (create.py): strip the serial, strip and
lowercase the device type, strip the problem description; the result is
the dictionary with exactly the three required keys. -/
def normalize_ticket_data (m : FieldMap) : PyDict :=
  [("serial_number", .str (pyStrip (fmGet m "serial_number"))),
   ("device_type", .str (pyLower (pyStrip (fmGet m "device_type")))),
   ("problem_description", .str (pyStrip (fmGet m "problem_description")))]

/-- `validate_ticket_data` (create.py): a required field is missing when
absent or blank after stripping; complete iff nothing is missing. -/
def validate_ticket_data (d : PyDict) : Bool × List String :=
  let missing := REQUIRED_TICKET_FIELDS.filter
    (fun f => (pyStrip (dGetStr d f "")).isEmpty)
  (missing.isEmpty, missing)

/-- `_contains_suspicious_content` (create.py): a value that contains one
of the suspicious patterns and is shorter than 5 characters after
stripping. -/
def contains_suspicious_content (d : PyDict) : Bool :=
  let pats := ["test", "dummy", "fake", "xxx", "000000"]
  (d.map (fun p => p.2)).any fun v =>
    match v with
    | .str s =>
      (pats.any fun pat => strContains (pyLower s) pat) &&
        decide ((pyStrip s).length < 5)
    | _ => false

/-- The "serial number too short" re-prompt of `_validate_business_rules`. -/
def serialTooShortMsg : String :=
  "Serial number quá ngắn. Vui lòng cung cấp Serial number có ít nhất 3 ký tự."

/-- The "suspicious content" re-prompt of `_validate_business_rules`. -/
def suspiciousContentMsg : String :=
  "Thông tin không hợp lệ. Vui lòng kiểm tra lại và cung cấp thông tin chính xác."

/-- `_validate_business_rules` (create.py): the serial must be at least 3
characters and the data must not look like a test entry. -/
def validate_business_rules (d : PyDict) : Bool × String :=
  if (dGetStr d "serial_number" "").length < 3 then
    (false, serialTooShortMsg)
  else if contains_suspicious_content d then
    (false, suspiciousContentMsg)
  else (true, "")

/-- `format_ticket_confirmation` (create.py). -/
def format_ticket_confirmation (d : PyDict) : String :=
  "✅ Mình xin xác nhận thông tin như sau:\n\n" ++
  "• S/N hoặc ID thiết bị: " ++ dGetStr d "serial_number" "Chưa có" ++ "\n" ++
  "• Loại thiết bị: " ++ dGetStr d "device_type" "Chưa có" ++ "\n" ++
  "• Nội dung sự cố: " ++ dGetStr d "problem_description" "Chưa có" ++ "\n\n" ++
  "Thông tin này có chính xác không ạ?\n" ++
  "(Trả lời 'đúng' để xác nhận hoặc 'sai' để nhập lại, hoặc nhập lại thông tin cần sửa)"

/-- `_handle_complete_ticket_data` (create.py): business-rule check, then
store the data and ask for confirmation with "chờ xác nhận". -/
def handle_complete_ticket_data (d : PyDict) (sm : StageManager) :
    RouteResult :=
  let v := validate_business_rules d
  if !v.1 then ⟨sm, .s v.2, "tạo ticket"⟩
  else
    ⟨store_ticket_data sm d, .s (format_ticket_confirmation d), "chờ xác nhận"⟩

/-- `_handle_incomplete_ticket_data` (create.py): list the missing fields
under their Vietnamese display names. -/
def handle_incomplete_ticket_data (missing : List String) : Resp × String :=
  let missingDisplay := String.intercalate ", " (missing.map fieldTranslationGet)
  (.s ("Thông tin ticket còn thiếu: " ++ missingDisplay ++
       ". Vui lòng cung cấp thêm thông tin."),
   "tạo ticket")

/-- `_process_ticket_data` (create.py): normalize, validate, then either
store-and-confirm or re-prompt for the missing fields. -/
def process_ticket_data (m : FieldMap) (sm : StageManager) : RouteResult :=
  let normalized := normalize_ticket_data m
  let v := validate_ticket_data normalized
  if v.1 then handle_complete_ticket_data normalized sm
  else
    let r := handle_incomplete_ticket_data v.2
    ⟨sm, r.1, r.2⟩

/-- `_handle_unexpected_response` (create.py). -/
def unexpectedResponseMsg : String :=
  "Xin lỗi, có lỗi xảy ra khi xử lý yêu cầu. Vui lòng thử lại."

/-- `handle_create_stage` (create.py): dispatch on the summary label,
then on the shape of the response. -/
def handle_create_stage (resp : Resp) (summary : String)
    (sm : StageManager) : RouteResult :=
  if summary == "đúng" then handle_confirmation_correct sm
  else if summary == "sai" then handle_confirmation_wrong sm
  else if summary == "sửa ticket" then ⟨sm, .s switchToEditMsg, "sửa ticket"⟩
  else if summary == "thoát" then ⟨sm, .s createExitMsg, "thoát"⟩
  else
    match resp with
    | .d m => process_ticket_data m sm
    | .s t => ⟨sm, .s t, if summary == "" then "tạo ticket" else summary⟩

/-- `_handle_ticket_creation_error` (create.py). -/
def ticketCreationErrorMsg : String :=
  "❌ Rất xin lỗi, hệ thống gặp sự cố và không thể tạo ticket. " ++
  "Vui lòng thử lại sau. Cảm ơn bạn!"

/-- `_handle_ticket_creation_error` (create.py) as a (response, summary)
pair. -/
def handle_ticket_creation_error : Resp × String :=
  (.s ticketCreationErrorMsg, "thoát")

/-- `_handle_cancel_ticket_creation` (create.py). -/
def handle_cancel_ticket_creation : Resp × String :=
  (.s ("Mình đã thực hiện hủy yêu cầu tạo phiếu của bạn rồi ạ. " ++
       "Cảm ơn bạn đã liên hệ, chào tạm biệt bạn!"),
   "thoát")

/-- `check_ticket_on_database` (create.py): look the serial up; `None`
and the empty list both come back as `[]` (every failure inside the
Python function, including its own exceptions, yields `[]`). -/
def check_ticket_on_database (env : ApiEnv) (ticket_data : PyDict) :
    List CI :=
  let serial_number := dGetStr ticket_data "serial_number" ""
  if serial_number == "" then []
  else
    match env.get_ci_with_sn serial_number with
    | some l => if l.isEmpty then [] else l
    | none => []

/-- `_create_ticket_directly` (create.py): build the summary (device type
prepended unless it already occurs in the problem description), create
the ticket, and report the id; any falsy ticket id is a creation
error. -/
def create_ticket_directly (env : ApiEnv) (ticket_data : PyDict) :
    Resp × String :=
  let device := dGetStr ticket_data "device_type" ""
  let problem := dGetStr ticket_data "problem_description" ""
  let s := if strContains problem device then problem
           else device ++ " " ++ problem
  match env.post_create_ticket (dGetStr ticket_data "serial_number" "") s with
  | some ticket_id =>
    if ticket_id != "" then
      (.s ("✅ Ticket đã được tạo thành công! Mã ticket: " ++ ticket_id ++
           ". Cảm ơn bạn đã liên hệ!"),
       "thoát")
    else handle_ticket_creation_error
  | none => handle_ticket_creation_error

/-- One listed line of an active ticket in the duplicate warning of
`_handle_single_ci_data_processing`: id, status and a summary truncated
to 50 characters. -/
def activeTicketLine (t : Ticket) : String :=
  let shortSummary :=
    if (t.summary.getD "").length > 50 then
      (t.summary.getD "No summary").take 50 ++ "..."
    else t.summary.getD "No summary"
  "#" ++ t.ticketid.getD "N/A" ++ " (" ++ t.status.getD "N/A" ++ "): " ++
    shortSummary

/-- The duplicate-ticket warning text of
`_handle_single_ci_data_processing`. -/
def activeTicketsWarning (deviceName serial : String)
    (active : List Ticket) : String :=
  let ticketsText := String.intercalate "\n"
    ((active.take 3).map (fun t => "• " ++ activeTicketLine t))
  "⚠️ Thiết bị \"" ++ deviceName ++ "\" (S/N: " ++ serial ++
  ") đã có ticket đang hoạt động:\n\n" ++ ticketsText ++
  "\n\nBạn có chắc chắn muốn tạo ticket mới không?\n" ++
  "- Nhập 'có' hoặc 'tạo' để tạo ticket mới\n" ++
  "- Nhập 'không' để hủy"

/-- `_create_ticket_with_ci_data` (create.py): create via the API using
the CI's serial; on success reset the session to main and report, else
report a creation error. -/
def create_ticket_with_ci_data (env : ApiEnv) (ticket_data : PyDict)
    (ci_data : CI) (sm : StageManager) : RouteResult :=
  let serial := ci_data.SerialNum.getD
    (ci_data.serial_number.getD (dGetStr ticket_data "serial_number" ""))
  let deviceName := ci_data.getDeviceName
  let problem := dGetStr ticket_data "problem_description" "N/A"
  match env.post_create_ticket serial problem with
  | some ticket_id =>
    if ticket_id != "" then
      let text := "✅ Ticket đã được tạo thành công!\n\n📋 Thông tin ticket:\n" ++
        "• Mã ticket: " ++ ticket_id ++ "\n" ++
        "• Thiết bị: " ++ deviceName ++ "\n" ++
        "• Serial Number: " ++ serial ++ "\n" ++
        "• Mô tả sự cố: " ++ problem ++ "\n\n" ++
        "Cảm ơn bạn đã liên hệ! Ticket sẽ được xử lý sớm nhất."
      ⟨reset_to_main sm, .s text, "thoát"⟩
    else ⟨sm, handle_ticket_creation_error.1, handle_ticket_creation_error.2⟩
  | none => ⟨sm, handle_ticket_creation_error.1, handle_ticket_creation_error.2⟩

/-- The terminal ticket statuses of `_handle_single_ci_data_processing`. -/
def terminalStatuses : List String := ["resolved", "closed", "cancelled"]

/-- `_handle_single_ci_data_processing` (create.py).  With existing
tickets present: warn about the active ones (capped at 3 in the text)
and move to the `1_ci_data` stage, or create directly when every
existing ticket is terminal.  With no existing tickets at all (`None` or
`[]`, both falsy) the function falls into its creation-error branch even
though its own comment says "No existing tickets - create new one". -/
def handle_single_ci_data_processing (env : ApiEnv) (ci_data : CI)
    (ticket_data : PyDict) (sm : StageManager) : RouteResult :=
  let serial := ci_data.getSerial
  let deviceName := ci_data.getDeviceName
  let existing := (env.get_all_ticket_for_sn serial).getD []
  if !existing.isEmpty then
    let active := existing.filter
      (fun t => !(terminalStatuses.contains (pyLower (t.status.getD ""))))
    if !active.isEmpty then
      let text := activeTicketsWarning deviceName serial active
      let sm := store_ci_data sm [ci_data]
      let sm := (switch_stage sm "1_ci_data").1
      ⟨sm, .s text, "1_ci_data"⟩
    else create_ticket_with_ci_data env ticket_data ci_data sm
  else ⟨sm, handle_ticket_creation_error.1, handle_ticket_creation_error.2⟩

/-- `_handle_multiple_ci_data_display` (create.py): list up to five
candidate devices (1-based numbering) and ask for the exact serial. -/
def handle_multiple_ci_data_display (ci_data_list : List CI) :
    Resp × String :=
  let lines := (ci_data_list.take 5).enum.map fun p =>
    let ci := p.2
    let serial := ci.SerialNum.getD (ci.serial_number.getD "N/A")
    let nm := ci.Name.getD (ci.name.getD "N/A")
    let location := ci.Location.getD (ci.location.getD "")
    let locationText := if location != "" then " - " ++ location else ""
    toString (p.1 + 1) ++ ". " ++ nm ++ " (S/N: " ++ serial ++ ")" ++
      locationText
  let ciListText := String.intercalate "\n" lines
  let exampleSerial := match ci_data_list.head? with
    | some ci => ci.SerialNum.getD "123456"
    | none => "123456"
  (.s ("🔍 Tìm thấy nhiều thiết bị với thông tin tương tự:\n\n" ++
       ciListText ++
       "\n\nVui lòng cung cấp Serial Number chính xác để tạo ticket.\n" ++
       "Ví dụ: '" ++ exampleSerial ++ "' hoặc 'không' để hủy"),
   "multiple_ci_data")

/-- `_process_ticket_creation` (create.py): branch on how many CIs the
serial resolves to — none: create directly; one: the single-CI
processing; more: store the candidates and move to `multiple_ci_data`. -/
def process_ticket_creation (env : ApiEnv) (ticket_data : PyDict)
    (sm : StageManager) : RouteResult :=
  match check_ticket_on_database env ticket_data with
  | [] =>
    let r := create_ticket_directly env ticket_data
    ⟨sm, r.1, r.2⟩
  | [ci] => handle_single_ci_data_processing env ci ticket_data sm
  | ci_data =>
    let sm := store_ci_data sm ci_data
    let sm := (switch_stage sm "multiple_ci_data").1
    let r := handle_multiple_ci_data_display ci_data
    ⟨sm, r.1, r.2⟩

/-- `_handle_correct_stage` (create.py): "đang xử lý" runs the ticket
creation on the stored data; "hoàn thành" and "thoát" reset to main. -/
def handle_correct_stage (env : ApiEnv) (sm : StageManager) (resp : Resp)
    (summary : String) : RouteResult :=
  if summary == "đang xử lý" then
    match get_stored_ticket_data sm with
    | some ticket_data => process_ticket_creation env ticket_data sm
    | none => ⟨sm, handle_ticket_creation_error.1, handle_ticket_creation_error.2⟩
  else if summary == "hoàn thành" then
    ⟨reset_to_main sm, resp, "ticket đã được tạo"⟩
  else if summary == "thoát" then ⟨reset_to_main sm, resp, summary⟩
  else ⟨sm, resp, summary⟩

/-- `_handle_single_ci_data_stage` (create.py): "tạo" creates with the
stored CI, "Không tạo" cancels, "thoát" exits, anything else passes
through. -/
def handle_single_ci_data_stage (env : ApiEnv) (sm : StageManager)
    (resp : Resp) (summary : String) : RouteResult :=
  if summary == "tạo" then
    match get_stored_ticket_data sm, get_stored_ci_data sm with
    | some ticket_data, some (ci :: _) =>
      create_ticket_with_ci_data env ticket_data ci sm
    | _, _ =>
      ⟨sm, handle_ticket_creation_error.1, handle_ticket_creation_error.2⟩
  else if summary == "Không tạo" then
    ⟨reset_to_main sm, handle_cancel_ticket_creation.1,
     handle_cancel_ticket_creation.2⟩
  else if summary == "thoát" then ⟨reset_to_main sm, resp, "thoát"⟩
  else ⟨sm, resp, summary⟩

/-- Whether a stored CI matches the serial the user supplied
(`ci.get('SerialNum') == serial or ci.get('serial_number') == serial`;
when the response is a payload dictionary neither comparison holds). -/
def ciMatchesResp (ci : CI) (resp : Resp) : Bool :=
  match resp with
  | .s serial => ci.SerialNum == some serial || ci.serial_number == some serial
  | .d _ => false

/-- `_handle_multiple_ci_data_stage` (create.py): "kiểm tra serial
number" resolves the supplied serial against the stored candidates (an
unmatched serial re-prompts); "Không tạo" cancels; "thoát" exits. -/
def handle_multiple_ci_data_stage (env : ApiEnv) (sm : StageManager)
    (resp : Resp) (summary : String) : RouteResult :=
  if summary == "kiểm tra serial number" then
    match get_stored_ci_data sm with
    | some ci_data_list =>
      match ci_data_list.find? (fun ci => ciMatchesResp ci resp) with
      | some selected =>
        match get_stored_ticket_data sm with
        | some ticket_data =>
          handle_single_ci_data_processing env selected ticket_data sm
        | none =>
          ⟨sm, handle_ticket_creation_error.1, handle_ticket_creation_error.2⟩
      | none =>
        ⟨sm, .s "Serial number không tìm thấy trong danh sách. Vui lòng chọn lại.",
         "multiple_ci_data"⟩
    | none =>
      ⟨sm, handle_ticket_creation_error.1, handle_ticket_creation_error.2⟩
  else if summary == "Không tạo" then
    ⟨reset_to_main sm, handle_cancel_ticket_creation.1,
     handle_cancel_ticket_creation.2⟩
  else if summary == "thoát" then ⟨reset_to_main sm, resp, "thoát"⟩
  else ⟨sm, resp, summary⟩

/-- `update_ticket_data` (create.py): apply an update payload to the
stored ticket dictionary — either the `field_to_update`/`new_value`
form, or a plain map of fields; only the three required field names are
writable.  A non-dictionary payload changes nothing. -/
def update_ticket_data (current : PyDict) (upd : Resp) : PyDict :=
  match upd with
  | .d m =>
    if fmHas m "field_to_update" && fmHas m "new_value" then
      let field := fmGet m "field_to_update"
      if REQUIRED_TICKET_FIELDS.contains field then
        dSet current field (.str (fmGet m "new_value"))
      else current
    else
      m.foldl (fun acc p =>
        if REQUIRED_TICKET_FIELDS.contains p.1 then
          dSet acc p.1 (.str p.2)
        else acc) current
  | .s _ => current

/-! ## editing_part/edit.py -/

/-- `EDITABLE_FIELDS` of edit.py. -/
def EDITABLE_FIELDS : List (String × String) :=
  [("summary", "m√¥ t·∫£"), ("status", "tr·∫°ng th√°i")]

/-- `EDITABLE_FIELDS.get(field, field)`. -/
def editableFieldsGet (field : String) : String :=
  match EDITABLE_FIELDS.find? (fun p => p.1 == field) with
  | some p => p.2
  | none => field

/-- `_handle_exit_request` (edit.py). -/
def editExitMsg : String :=
  "D·∫° v√¢ng, v·∫≠y khi n√†o b·∫°n c√≥ nhu c·∫ßu s·ª≠a ticket " ++
  "th√¨ m√¨nh h·ªó tr·ª£ b·∫°n nh√©. Ch√†o t·∫°m bi·ªát b·∫°n"

/-- `_handle_switch_to_create` (edit.py). -/
def switchToCreateMsg : String :=
  "ƒê√£ chuy·ªÉn sang ch·∫ø ƒë·ªô t·∫°o ticket m·ªõi cho b·∫°n. " ++
  "ƒê·ªÉ t·∫°o ticket m·ªõi, b·∫°n c·∫ßn cung c·∫•p th√¥ng tin sau: " ++
  "S/N ho·∫∑c ID thi·∫øt b·ªã v√† n·ªôi dung s·ª± c·ªë."

/-- `_handle_edit_error` (edit.py): the apology the edit handlers give
when one of their own try blocks catches an exception `e`. -/
def editErrorResult (e : String) : Resp × String :=
  (.s ("Xin l·ªói, c√≥ l·ªói x·∫£y ra khi x·ª≠ l√Ω y√™u c·∫ßu s·ª≠a ticket: " ++ e),
   "tho√°t")

/-- `_handle_unexpected_response` (edit.py). -/
def editUnexpectedMsg : String :=
  "Xin l·ªói, c√≥ l·ªói x·∫£y ra khi x·ª≠ l√Ω y√™u c·∫ßu s·ª≠a ticket. Vui l√≤ng th·ª≠ l·∫°i."

/-- `_handle_ticket_not_found` (edit.py). -/
def ticketNotFoundResult (ticket_id : String) : Resp × String :=
  (.s ("‚ùå Kh√¥ng t√¨m th·∫•y ticket '" ++ ticket_id ++ "' tr√™n h·ªá th·ªëng. " ++
       "Vui l√≤ng ki·ªÉm tra l·∫°i th√¥ng tin v√† th·ª≠ l·∫°i sau. " ++
       "C·∫£m ∆°n b·∫°n!"),
   "tho√°t")

/-- `_is_valid_ticket_id_format` (edit.py): the TKnnn / nnn / AAnnn
patterns (case-insensitive, full match) or an alphanumeric id once `-`
and `_` are removed. -/
def is_valid_ticket_id_format (ticket_id : String) : Bool :=
  if ticket_id == "" then false
  else
    let t := pyStrip ticket_id
    let digitsTail (k : Nat) : Bool :=
      decide (t.length > k) && (t.drop k).all Char.isDigit
    let patTK := t.length > 2 && pyUpper (t.take 2) == "TK" && digitsTail 2
    let patDigits := !t.isEmpty && t.all Char.isDigit
    let patAlpha2 := t.length > 2 && (t.take 2).all Char.isAlpha && digitsTail 2
    let flexible :=
      let u := (t.replace "-" "").replace "_" ""
      !u.isEmpty && u.all Char.isAlphanum
    patTK || patDigits || patAlpha2 || flexible

/-- `validate_ticket_id` (edit.py): the `ticket_id` key must be present
and well-formed. -/
def validate_ticket_id (ticket_info : FieldMap) : Bool × List String :=
  let missing := if !fmHas ticket_info "ticket_id" then ["ticket_id"] else []
  let missing :=
    if missing.isEmpty &&
        !is_valid_ticket_id_format (fmGet ticket_info "ticket_id") then
      missing ++ ["invalid_ticket_id_format"]
    else missing
  (missing.isEmpty, missing)

/-- `_handle_incomplete_ticket_id` (edit.py). -/
def handle_incomplete_ticket_id (missing : List String) : Resp × String :=
  let missingField := missing.headD "ticket_id"
  if missingField == "invalid_ticket_id_format" then
    (.s ("Ticket ID kh√¥ng ƒë√∫ng ƒë·ªãnh d·∫°ng. Vui l√≤ng cung c·∫•p ticket ID " ++
         "h·ª£p l·ªá (v√≠ d·ª•: TK123456 ho·∫∑c 123456)."),
     "s·ª≠a ticket")
  else
    (.s ("Th√¥ng tin s·ª≠a ticket c√≤n thi·∫øu: " ++
         editableFieldsGet missingField ++
         ". Vui l√≤ng cung c·∫•p th√™m th√¥ng tin."),
     "s·ª≠a ticket")

/-- `_format_ticket_info` (edit.py). -/
def format_ticket_info (t : Ticket) : String :=
  "‚Ä¢ ID: " ++ t.ticketid.getD (t.id.getD "N/A") ++ "\n" ++
  "‚Ä¢ M√¥ t·∫£: " ++ t.summary.getD "Kh√¥ng c√≥ m√¥ t·∫£" ++ "\n" ++
  "‚Ä¢ Tr·∫°ng th√°i: " ++ t.status.getD "N/A"

/-- `_display_and_request_update` (edit.py): show the ticket and ask
which field to change. -/
def display_and_request_update (t : Ticket) (ticket_id : String) :
    Resp × String :=
  (.s ("üìã Th√¥ng tin ticket " ++ ticket_id ++ ":\n" ++
       format_ticket_info t ++
       "\n\nƒê√¢y l√† th√¥ng tin ticket. B·∫°n mu·ªën c·∫≠p nh·∫≠t th√¥ng tin g√¨? " ++
       "T√¥i c√≥ th·ªÉ c·∫≠p nh·∫≠t m√¥ t·∫£ v√† tr·∫°ng th√°i c·ªßa ticket.\n\n" ++
       "Vui l√≤ng cho bi·∫øt:\n" ++
       "- Tr∆∞·ªùng c·∫ßn c·∫≠p nh·∫≠t (m√¥ t·∫£ ho·∫∑c tr·∫°ng th√°i)\n" ++
       "- N·ªôi dung m·ªõi\n\n" ++
       "V√≠ d·ª•: \"c·∫≠p nh·∫≠t m√¥ t·∫£ th√†nh: m√°y in kh√¥ng in ƒë∆∞·ª£c m√†u\"\n"),
   "ch·ªù th√¥ng tin c·∫≠p nh·∫≠t")

/-- `_retrieve_ticket_for_editing` (edit.py): fetch the ticket, store
`ticket_id`/`ticket_info`, move to `updating_ticket` and display it. -/
def retrieve_ticket_for_editing (env : ApiEnv) (ticket_id : String)
    (sm : StageManager) : RouteResult :=
  match env.get_ticket_by_id ticket_id with
  | none =>
    let r := ticketNotFoundResult ticket_id
    ⟨sm, r.1, r.2⟩
  | some t =>
    let sm := store_ticket_data sm
      [("ticket_id", .str ticket_id), ("ticket_info", .ticket t)]
    let sm := (switch_stage sm "updating_ticket").1
    let r := display_and_request_update t ticket_id
    ⟨sm, r.1, r.2⟩

/-- `_process_ticket_id_input` (edit.py). -/
def process_ticket_id_input (env : ApiEnv) (ticket_info : FieldMap)
    (sm : StageManager) : RouteResult :=
  let v := validate_ticket_id ticket_info
  if v.1 then retrieve_ticket_for_editing env (fmGet ticket_info "ticket_id") sm
  else
    let r := handle_incomplete_ticket_id v.2
    ⟨sm, r.1, r.2⟩

/-- `handle_edit_stage` (edit.py): dispatch on the summary label, then
on the response shape.  The two label literals are double-encoded in
the source, so the classifier-emitted "tạo ticket"/"thoát" labels never
match them and fall through to the response-shape branches. -/
def handle_edit_stage (env : ApiEnv) (resp : Resp) (summary : String)
    (sm : StageManager) : RouteResult :=
  if summary == "t·∫°o ticket" then ⟨sm, .s switchToCreateMsg, "t·∫°o ticket"⟩
  else if summary == "tho√°t" then ⟨sm, .s editExitMsg, "tho√°t"⟩
  else
    match resp with
    | .d m => process_ticket_id_input env m sm
    | .s t => ⟨sm, .s t, if summary == "" then "s·ª≠a ticket" else summary⟩

/-- `_display_update_confirmation` (edit.py). -/
def display_update_confirmation (ticket_id : String) (upd : FieldMap) :
    Resp × String :=
  let updateText := String.intercalate "\n"
    (upd.map (fun p => "‚Ä¢ " ++ editableFieldsGet p.1 ++ ": " ++ p.2))
  (.s ("‚úÖ X√°c nh·∫≠n th√¥ng tin c·∫≠p nh·∫≠t cho ticket " ++ ticket_id ++ ":\n" ++
       updateText ++
       "\n\nTh√¥ng tin n√†y c√≥ ch√≠nh x√°c kh√¥ng?\n" ++
       "(Tr·∫£ l·ªùi 'ƒë√∫ng' ƒë·ªÉ x√°c nh·∫≠n ho·∫∑c 'sai' ƒë·ªÉ nh·∫≠p l·∫°i)"),
   "ch·ªù x√°c nh·∫≠n c·∫≠p nh·∫≠t edit")

/-- `_process_update_data` (edit.py): require stored data with a
`ticket_id`, add `update_data`, move to `edit_confirmation` and ask for
confirmation. -/
def process_update_data (upd : FieldMap) (sm : StageManager) :
    RouteResult :=
  match get_stored_ticket_data sm with
  | none =>
    let r := editErrorResult "Missing ticket data"
    ⟨sm, r.1, r.2⟩
  | some stored =>
    if !dHas stored "ticket_id" then
      let r := editErrorResult "Missing ticket data"
      ⟨sm, r.1, r.2⟩
    else
      let ticket_id := dGetStr stored "ticket_id" ""
      let sm := store_ticket_data sm (dSet stored "update_data" (.fmap upd))
      let sm := (switch_stage sm "edit_confirmation").1
      let r := display_update_confirmation ticket_id upd
      ⟨sm, r.1, r.2⟩

/-- `handle_updating_ticket_stage` (edit.py): the literal "tho√°t"
clears the stored ticket data (only); an update payload whose label is
the literal "c·∫≠p nh·∫≠t ticket" moves to confirmation; a plain reply
with the literal label "ch·ªù th√¥ng tin c·∫≠p nh·∫≠t" re-displays the
stored ticket; anything else passes through or is treated as
unexpected.  All three trigger literals are double-encoded in the
source, so the classifier's proper-UTF-8 labels always take the
pass-through branches. -/
def handle_updating_ticket_stage (sm : StageManager)
    (resp : Resp) (summary : String) : RouteResult :=
  if summary == "tho√°t" then ⟨clear_ticket_data sm, .s editExitMsg, "tho√°t"⟩
  else
    match resp with
    | .d m =>
      if summary == "c·∫≠p nh·∫≠t ticket" then process_update_data m sm
      else ⟨sm, .s editUnexpectedMsg, "s·ª≠a ticket"⟩
    | .s t =>
      if summary == "ch·ªù th√¥ng tin c·∫≠p nh·∫≠t" then
        match get_stored_ticket_data sm with
        | some stored =>
          match dGet? stored "ticket_info" with
          | some (.ticket tk) =>
            let r := display_and_request_update tk
              (dGetStr stored "ticket_id" "")
            match r.1 with
            | .s r1 => ⟨sm, .s (t ++ "\n" ++ r1), r.2⟩
            | .d _ => ⟨sm, r.1, r.2⟩
          | _ =>
            let r := editErrorResult "missing ticket_info"
            ⟨sm, r.1, r.2⟩
        | none =>
          let r := editErrorResult "missing ticket data"
          ⟨sm, r.1, r.2⟩
      else ⟨sm, .s t, if summary == "" then "s·ª≠a ticket" else summary⟩

/-- `_handle_update_api_error` (edit.py): report the failure and end with
"tho√°t"; the session state is left untouched (no transition back to
`updating_ticket`). -/
def handle_update_api_error (ticket_id : String) (result : Option UpdResp)
    (sm : StageManager) : RouteResult :=
  let errorCode := match result with
    | some r => toString r.response_code
    | none => "Unknown"
  let errorMessage := match result with
    | some r => r.message
    | none => "Unknown error"
  ⟨sm, .s ("‚ùå Kh√¥ng th·ªÉ c·∫≠p nh·∫≠t ticket " ++ ticket_id ++ ". " ++
           "L·ªói h·ªá th·ªëng: " ++ errorCode ++ " - " ++ errorMessage ++ ". " ++
           "Vui l√≤ng th·ª≠ l·∫°i sau."),
   "tho√°t"⟩

/-- `_execute_ticket_update` (edit.py): call the update API; a result
with response code 200 clears the data, resets to main and reports
success with "tho√°t"; anything else is the update-API error (which also
ends with "tho√°t"). -/
def execute_ticket_update (env : ApiEnv) (ticket_id : String)
    (upd : FieldMap) (sm : StageManager) : RouteResult :=
  match env.post_update_ticket ticket_id upd with
  | some result =>
    if result.response_code == 200 then
      let updateFields := String.intercalate ", "
        (upd.map (fun p => editableFieldsGet p.1))
      let text := "‚úÖ C·∫≠p nh·∫≠t ticket th√†nh c√¥ng!\n\nüìã Th√¥ng tin ƒë√£ c·∫≠p nh·∫≠t:\n" ++
        "‚Ä¢ Ticket ID: " ++ ticket_id ++ "\n" ++
        "‚Ä¢ Tr∆∞·ªùng ƒë√£ c·∫≠p nh·∫≠t: " ++ updateFields ++ "\n\n" ++
        "C·∫£m ∆°n b·∫°n ƒë√£ s·ª≠ d·ª•ng d·ªãch v·ª•!"
      ⟨reset_to_main (clear_ticket_data sm), .s text, "tho√°t"⟩
    else handle_update_api_error ticket_id (some result) sm
  | none => handle_update_api_error ticket_id none sm

/-- `_handle_update_confirmation_correct` (edit.py): require stored data
with `update_data` (and a `ticket_id`, whose absence raises a KeyError
that the outer try turns into the edit error), then execute the
update. -/
def handle_update_confirmation_correct (env : ApiEnv) (sm : StageManager) :
    RouteResult :=
  match get_stored_ticket_data sm with
  | none =>
    let r := editErrorResult "Missing update data"
    ⟨sm, r.1, r.2⟩
  | some stored =>
    if !dHas stored "update_data" then
      let r := editErrorResult "Missing update data"
      ⟨sm, r.1, r.2⟩
    else if !dHas stored "ticket_id" then
      let r := editErrorResult "KeyError ticket_id"
      ⟨sm, r.1, r.2⟩
    else
      match dGet? stored "update_data" with
      | some (.fmap upd) =>
        execute_ticket_update env (dGetStr stored "ticket_id" "") upd sm
      | _ =>
        let r := editErrorResult "update data has an unexpected shape"
        ⟨sm, r.1, r.2⟩

/-- `_handle_update_confirmation_wrong` (edit.py): drop `update_data`,
switch back to `updating_ticket` and re-display the ticket; without
stored data, re-prompt for a ticket id. -/
def handle_update_confirmation_wrong (sm : StageManager) : RouteResult :=
  let noData : RouteResult :=
    ⟨sm, .s ("C·∫£m ∆°n b·∫°n ƒë√£ ph·∫£n h·ªìi. Vui l√≤ng cung c·∫•p th√¥ng tin " ++
             "ticket ID ƒë·ªÉ ti·∫øp t·ª•c."),
     "s·ª≠a ticket"⟩
  match get_stored_ticket_data sm with
  | some stored =>
    if dHas stored "ticket_info" then
      match dGet? stored "ticket_info" with
      | some (.ticket tk) =>
        if !dHas stored "ticket_id" then
          let r := editErrorResult "KeyError ticket_id"
          ⟨sm, r.1, r.2⟩
        else
          let ticket_id := dGetStr stored "ticket_id" ""
          let sm := store_ticket_data sm
            [("ticket_id", .str ticket_id), ("ticket_info", .ticket tk)]
          let sm := (switch_stage sm "updating_ticket").1
          let r := display_and_request_update tk ticket_id
          ⟨sm, r.1, r.2⟩
      | _ =>
        let r := editErrorResult "ticket_info has an unexpected shape"
        ⟨sm, r.1, r.2⟩
    else noData
  | none => noData

/-- The re-prompt of `handle_edit_confirmation_stage`'s fallback branch
(double-encoded, as the source parses it). -/
def editConfirmReprompt : String :=
  "Vui l√≤ng tr·∫£ l·ªùi 'ƒë√∫ng' ƒë·ªÉ x√°c nh·∫≠n ho·∫∑c 'sai' ƒë·ªÉ nh·∫≠p l·∫°i " ++
  "th√¥ng tin."

/-- `handle_edit_confirmation_stage` (edit.py): the literal "ƒë√∫ng"
executes the stored update, "sai" goes back to `updating_ticket`, the
literal "tho√°t" clears the ticket data and exits, anything else
re-prompts.  "sai" is pure ASCII and works; the other two literals are
double-encoded in the source, so the classifier's "đúng" and "thoát"
always land in the re-prompt branch and the update-execution path is
dead on the labels the system actually produces. -/
def handle_edit_confirmation_stage (env : ApiEnv) (sm : StageManager)
    (_resp : Resp) (summary : String) : RouteResult :=
  if summary == "ƒë√∫ng" then handle_update_confirmation_correct env sm
  else if summary == "sai" then handle_update_confirmation_wrong sm
  else if summary == "tho√°t" then ⟨clear_ticket_data sm, .s editExitMsg, "tho√°t"⟩
  else
    ⟨sm, .s editConfirmReprompt, "ch·ªù x√°c nh·∫≠n c·∫≠p nh·∫≠t edit"⟩

/-! ## utils.py: stage routing

`_handle_create_stage_routing`, `_handle_confirmation_stage`,
`_handle_update_confirmation_stage` and `_update_ticket_data` are
mutually recursive through the source's cross-module call chain
(`_update_ticket_data` calls back into `_handle_create_stage_routing`).
The embedding adds a `fuel` parameter, decremented on that back edge; an
exhausted fuel returns the state unchanged with a marker summary, which
never happens on the arguments the source actually produces (the back
edge always carries a plain-string response, which recurses no
further). -/

mutual

/-- `_handle_create_stage_routing` (utils.py): run the create-stage
handler, then apply the routing transitions on its summary. -/
def handle_create_stage_routing (fuel : Nat) (env : ApiEnv)
    (sm : StageManager) (resp : Resp) (summary : String) : RouteResult :=
  let r := handle_create_stage resp summary sm
  if r.summary == "đúng" && (get_stored_ticket_data r.sm).isSome then
    handle_confirmation_stage fuel env ((switch_stage r.sm "confirmation").1)
      r.response r.summary
  else if r.summary == "chờ xác nhận" then
    ⟨(switch_stage r.sm "confirmation").1, r.response, r.summary⟩
  else if r.summary == "thoát" || r.summary == "sửa ticket" then
    ⟨reset_to_main r.sm, r.response, r.summary⟩
  else r
termination_by (fuel, 3)

/-- `_handle_confirmation_stage` (create.py): a payload dictionary moves
to `update_confirmation`; "đúng" moves to `correct` and processes;
"sai" clears the data and goes back to `create`; "thoát" resets. -/
def handle_confirmation_stage (fuel : Nat) (env : ApiEnv)
    (sm : StageManager) (resp : Resp) (summary : String) : RouteResult :=
  match resp with
  | .d _ =>
    handle_update_confirmation_stage fuel env
      ((switch_stage sm "update_confirmation").1) resp summary
  | .s _ =>
    if summary == "đúng" then
      handle_correct_stage env ((switch_stage sm "correct").1) resp
        "đang xử lý"
    else if summary == "sai" then
      ⟨clear_ticket_data (switch_stage sm "create").1, resp, "tạo ticket"⟩
    else if summary == "thoát" then ⟨reset_to_main sm, resp, "thoát"⟩
    else ⟨sm, resp, "chờ xác nhận"⟩
termination_by (fuel, 2)

/-- `_handle_update_confirmation_stage` (create.py). -/
def handle_update_confirmation_stage (fuel : Nat) (env : ApiEnv)
    (sm : StageManager) (resp : Resp) (summary : String) : RouteResult :=
  if summary == "cập nhật thông tin" then
    update_ticket_data_handler fuel env sm resp summary
  else if summary == "thoát" then ⟨reset_to_main sm, resp, "thoát"⟩
  else ⟨sm, resp, summary⟩
termination_by (fuel, 1)

/-- `_update_ticket_data` (create.py): merge the update payload into the
stored dictionary, re-render the confirmation, switch to `create` and
route the result as "chờ xác nhận". -/
def update_ticket_data_handler (fuel : Nat) (env : ApiEnv)
    (sm : StageManager) (upd : Resp) (_summary : String) : RouteResult :=
  match get_stored_ticket_data sm with
  | none =>
    ⟨sm, .s "Không tìm thấy thông tin ticket để cập nhật.", "thoát"⟩
  | some current =>
    match fuel with
    | 0 => ⟨sm, .s "model: fuel exhausted", "error"⟩
    | f + 1 =>
      let updated := update_ticket_data current upd
      let sm := store_ticket_data sm updated
      let confirmationResponse := format_ticket_confirmation updated
      let sm := (switch_stage sm "create").1
      handle_create_stage_routing f env sm (.s confirmationResponse)
        "chờ xác nhận"
termination_by (fuel, 0)

end

/-- `_handle_main_stage` (utils.py): "tạo ticket" switches to `create`
and runs the create handler; "sửa ticket" switches to `edit` and runs
the edit handler; everything else (including "thoát") passes through
unchanged. -/
def handle_main_stage (env : ApiEnv) (sm : StageManager) (resp : Resp)
    (summary : String) : RouteResult :=
  if summary == "tạo ticket" then
    handle_create_stage resp summary ((switch_stage sm "create").1)
  else if summary == "sửa ticket" then
    handle_edit_stage env resp summary ((switch_stage sm "edit").1)
  else ⟨sm, resp, summary⟩

/-- `_handle_edit_stage_routing` (utils.py). -/
def handle_edit_stage_routing (env : ApiEnv) (sm : StageManager)
    (resp : Resp) (summary : String) : RouteResult :=
  let r := handle_edit_stage env resp summary sm
  if r.summary == "thoát" || r.summary == "tạo ticket" then
    ⟨reset_to_main r.sm, r.response, r.summary⟩
  else r

/-- The dispatch of `route_to_stage` (utils.py): pick the handler for the
current stage; an unhandled stage falls through unchanged. -/
def route_to_stage (fuel : Nat) (env : ApiEnv) (sm : StageManager)
    (resp : Resp) (summary : String) : RouteResult :=
  if sm.current_stage == "main" then handle_main_stage env sm resp summary
  else if sm.current_stage == "create" then
    handle_create_stage_routing fuel env sm resp summary
  else if sm.current_stage == "edit" then
    handle_edit_stage_routing env sm resp summary
  else if sm.current_stage == "confirmation" then
    handle_confirmation_stage fuel env sm resp summary
  else if sm.current_stage == "update_confirmation" then
    handle_update_confirmation_stage fuel env sm resp summary
  else if sm.current_stage == "correct" then
    handle_correct_stage env sm resp summary
  else if sm.current_stage == "1_ci_data" then
    handle_single_ci_data_stage env sm resp summary
  else if sm.current_stage == "multiple_ci_data" then
    handle_multiple_ci_data_stage env sm resp summary
  else if sm.current_stage == "updating_ticket" then
    handle_updating_ticket_stage sm resp summary
  else if sm.current_stage == "edit_confirmation" then
    handle_edit_confirmation_stage env sm resp summary
  else ⟨sm, resp, summary⟩

/-- An exception raised inside the try block of `route_to_stage`. -/
structure PyExn where
  msg : String
deriving Repr, DecidableEq

/-- The apology `route_to_stage`'s except block builds from the caught
exception. -/
def routeErrorReply (e : PyExn) : String :=
  "Xin lỗi, có lỗi xảy ra trong quá trình xử lý: " ++ e.msg

/-- The try/except skeleton of `route_to_stage` (utils.py lines
354-396).  The try block — the dispatch to the current stage's handler —
either returns a result or raises; since Python mutates `stage_manager`
in place, a raising run is a pair of the exception and the state at the
moment the exception propagates.  The except block only logs and
returns the apology with summary "error": it performs no reset of the
stage and no clearing of the pending data. -/
def route_to_stage_tryexcept
    (tryBlock : Except (PyExn × StageManager) RouteResult) : RouteResult :=
  match tryBlock with
  | .ok r => r
  | .error p => ⟨p.2, .s (routeErrorReply p.1), "error"⟩

/-! ## Concrete data used to instantiate theorems -/

/-- A Gateway every call of which fails (returns `None`). -/
def wEnvNone : ApiEnv :=
  { get_ci_with_sn := fun _ => none,
    get_all_ticket_for_sn := fun _ => none,
    post_create_ticket := fun _ _ => none,
    get_ticket_by_id := fun _ => none,
    post_update_ticket := fun _ _ => none }

/-- A concrete configuration item. -/
def wCI : CI :=
  { SerialNum := some "48917912", serial_number := none,
    Name := some "ATM_48917912", name := none,
    Location := some "Hà Nội", location := none }

/-- A concrete complete create-flow ticket dictionary (as normalized and
stored). -/
def wTicketData : PyDict :=
  [("serial_number", .str "48917912"),
   ("device_type", .str "máy in"),
   ("problem_description", .str "máy in hỏng")]

/-- A Gateway on which the serial resolves to exactly one CI, the CI has
no tickets at all, and ticket creation would succeed. -/
def wEnvOneCiNoTickets : ApiEnv :=
  { wEnvNone with
    get_ci_with_sn := fun _ => some [wCI],
    get_all_ticket_for_sn := fun _ => some [],
    post_create_ticket := fun _ _ => some "2709474" }

/-- A session in the `correct` stage carrying the pending ticket. -/
def wSmCorrect : StageManager :=
  { current_stage := "correct", previous_stage := some "confirmation",
    pending_ticket_data := some wTicketData, pending_ci_data := none,
    stage_history := ["main"] }

/-- A session in the `confirmation` stage carrying the pending ticket. -/
def wSmConf : StageManager :=
  { current_stage := "confirmation", previous_stage := some "create",
    pending_ticket_data := some wTicketData, pending_ci_data := none,
    stage_history := ["main"] }

/-- A session in the `create` stage with nothing pending. -/
def wSmCreate : StageManager :=
  { current_stage := "create", previous_stage := some "main",
    pending_ticket_data := none, pending_ci_data := none,
    stage_history := ["main"] }

/-- A concrete ticket under edit. -/
def wTicket : Ticket :=
  { ticketid := some "2709798", id := none, status := some "Open",
    summary := some "máy in hết mực" }

/-- The stored edit-flow dictionary after `_process_update_data`. -/
def wEditStored : PyDict :=
  [("ticket_id", .str "2709798"),
   ("ticket_info", .ticket wTicket),
   ("update_data", .fmap [("summary", "máy in không in được")])]

/-- A session in the `edit_confirmation` stage with a stored update. -/
def wSmEditConf : StageManager :=
  { current_stage := "edit_confirmation",
    previous_stage := some "updating_ticket",
    pending_ticket_data := some wEditStored, pending_ci_data := none,
    stage_history := ["main"] }

/-- A session in the `updating_ticket` stage that also carries a pending
CI list. -/
def wSmUpdating : StageManager :=
  { current_stage := "updating_ticket", previous_stage := some "edit",
    pending_ticket_data := some wEditStored, pending_ci_data := some [wCI],
    stage_history := ["main"] }

/-- A Gateway whose ticket update succeeds with response code 200. -/
def wEnvUpdateOk : ApiEnv :=
  { wEnvNone with
    post_update_ticket := fun _ _ => some { response_code := 200, message := "OK" } }

end TicketBot

namespace TicketBot

/-- The routing invariant: the session's current stage is one of the fixed
StageId set. -/
def stageOK (sm : StageManager) : Prop := sm.current_stage ∈ validStages

theorem store_ticket_data_current (sm : StageManager) (d : PyDict) :
    (store_ticket_data sm d).current_stage = sm.current_stage := rfl

theorem clear_ticket_data_current (sm : StageManager) :
    (clear_ticket_data sm).current_stage = sm.current_stage := rfl

theorem reset_to_main_current (sm : StageManager) :
    (reset_to_main sm).current_stage = "main" := rfl

theorem stageOK_switch (sm : StageManager) (x : String) (h : stageOK sm) :
    stageOK (switch_stage sm x).1 := by
  unfold stageOK switch_stage at *
  split
  · next hc => simpa using List.mem_of_elem_eq_true hc
  · exact h

theorem stageOK_reset (sm : StageManager) : stageOK (reset_to_main sm) := by
  unfold stageOK
  rw [reset_to_main_current]
  decide

theorem stageOK_store (sm : StageManager) (d : PyDict) (h : stageOK sm) :
    stageOK (store_ticket_data sm d) := by
  unfold stageOK
  rw [store_ticket_data_current]
  exact h

theorem stageOK_clear (sm : StageManager) (h : stageOK sm) :
    stageOK (clear_ticket_data sm) := by
  unfold stageOK
  rw [clear_ticket_data_current]
  exact h

theorem handle_confirmation_correct_current (sm : StageManager) :
    (handle_confirmation_correct sm).sm.current_stage = sm.current_stage := by
  unfold handle_confirmation_correct
  split <;> rfl

theorem handle_confirmation_wrong_current (sm : StageManager) :
    (handle_confirmation_wrong sm).sm.current_stage = sm.current_stage := by
  unfold handle_confirmation_wrong
  split <;> rfl

theorem handle_complete_ticket_data_current (d : PyDict) (sm : StageManager) :
    (handle_complete_ticket_data d sm).sm.current_stage = sm.current_stage := by
  unfold handle_complete_ticket_data
  try dsimp only
  split <;> rfl

theorem process_ticket_data_current (m : FieldMap) (sm : StageManager) :
    (process_ticket_data m sm).sm.current_stage = sm.current_stage := by
  unfold process_ticket_data
  try dsimp only
  split
  · exact handle_complete_ticket_data_current _ _
  · rfl

theorem handle_create_stage_current (resp : Resp) (summary : String)
    (sm : StageManager) :
    (handle_create_stage resp summary sm).sm.current_stage =
      sm.current_stage := by
  unfold handle_create_stage
  split
  · exact handle_confirmation_correct_current _
  · split
    · exact handle_confirmation_wrong_current _
    · split
      · rfl
      · split
        · rfl
        · split
          · exact process_ticket_data_current _ _
          · split <;> rfl

theorem create_ticket_with_ci_data_stageOK (env : ApiEnv) (td : PyDict)
    (ci : CI) (sm : StageManager) (h : stageOK sm) :
    stageOK (create_ticket_with_ci_data env td ci sm).sm := by
  unfold create_ticket_with_ci_data
  try dsimp only
  repeat' split
  all_goals first
    | exact h
    | exact stageOK_reset _

theorem handle_single_ci_data_processing_stageOK (env : ApiEnv) (ci : CI)
    (td : PyDict) (sm : StageManager) (h : stageOK sm) :
    stageOK (handle_single_ci_data_processing env ci td sm).sm := by
  unfold handle_single_ci_data_processing
  try dsimp only
  repeat' split
  all_goals first
    | exact h
    | exact stageOK_switch _ _ h
    | exact create_ticket_with_ci_data_stageOK _ _ _ _ h

theorem process_ticket_creation_stageOK (env : ApiEnv) (td : PyDict)
    (sm : StageManager) (h : stageOK sm) :
    stageOK (process_ticket_creation env td sm).sm := by
  unfold process_ticket_creation
  try dsimp only
  repeat' split
  all_goals first
    | exact h
    | exact stageOK_switch _ _ h
    | exact handle_single_ci_data_processing_stageOK _ _ _ _ h

theorem handle_correct_stage_stageOK (env : ApiEnv) (sm : StageManager)
    (resp : Resp) (summary : String) (h : stageOK sm) :
    stageOK (handle_correct_stage env sm resp summary).sm := by
  unfold handle_correct_stage
  try dsimp only
  repeat' split
  all_goals first
    | exact h
    | exact stageOK_reset _
    | exact process_ticket_creation_stageOK _ _ _ h

theorem handle_single_ci_data_stage_stageOK (env : ApiEnv) (sm : StageManager)
    (resp : Resp) (summary : String) (h : stageOK sm) :
    stageOK (handle_single_ci_data_stage env sm resp summary).sm := by
  unfold handle_single_ci_data_stage
  try dsimp only
  repeat' split
  all_goals first
    | exact h
    | exact stageOK_reset _
    | exact create_ticket_with_ci_data_stageOK _ _ _ _ h

theorem handle_multiple_ci_data_stage_stageOK (env : ApiEnv)
    (sm : StageManager) (resp : Resp) (summary : String) (h : stageOK sm) :
    stageOK (handle_multiple_ci_data_stage env sm resp summary).sm := by
  unfold handle_multiple_ci_data_stage
  try dsimp only
  repeat' split
  all_goals first
    | exact h
    | exact stageOK_reset _
    | exact handle_single_ci_data_processing_stageOK _ _ _ _ h

theorem retrieve_ticket_for_editing_stageOK (env : ApiEnv) (tid : String)
    (sm : StageManager) (h : stageOK sm) :
    stageOK (retrieve_ticket_for_editing env tid sm).sm := by
  unfold retrieve_ticket_for_editing
  try dsimp only
  repeat' split
  all_goals first
    | exact h
    | exact stageOK_switch _ _ (stageOK_store _ _ h)

theorem process_ticket_id_input_stageOK (env : ApiEnv) (m : FieldMap)
    (sm : StageManager) (h : stageOK sm) :
    stageOK (process_ticket_id_input env m sm).sm := by
  unfold process_ticket_id_input
  try dsimp only
  repeat' split
  all_goals first
    | exact h
    | exact retrieve_ticket_for_editing_stageOK _ _ _ h

theorem handle_edit_stage_stageOK (env : ApiEnv) (resp : Resp)
    (summary : String) (sm : StageManager) (h : stageOK sm) :
    stageOK (handle_edit_stage env resp summary sm).sm := by
  unfold handle_edit_stage
  try dsimp only
  repeat' split
  all_goals first
    | exact h
    | exact process_ticket_id_input_stageOK _ _ _ h

theorem process_update_data_stageOK (m : FieldMap) (sm : StageManager)
    (h : stageOK sm) : stageOK (process_update_data m sm).sm := by
  unfold process_update_data
  try dsimp only
  repeat' split
  all_goals first
    | exact h
    | exact stageOK_switch _ _ (stageOK_store _ _ h)

theorem handle_updating_ticket_stage_stageOK (sm : StageManager)
    (resp : Resp) (summary : String) (h : stageOK sm) :
    stageOK (handle_updating_ticket_stage sm resp summary).sm := by
  unfold handle_updating_ticket_stage
  try dsimp only
  repeat' split
  all_goals first
    | exact h
    | exact stageOK_clear _ h
    | exact process_update_data_stageOK _ _ h

theorem execute_ticket_update_stageOK (env : ApiEnv) (tid : String)
    (upd : FieldMap) (sm : StageManager) (h : stageOK sm) :
    stageOK (execute_ticket_update env tid upd sm).sm := by
  unfold execute_ticket_update handle_update_api_error
  try dsimp only
  repeat' split
  all_goals first
    | exact h
    | exact stageOK_reset _

theorem handle_update_confirmation_correct_stageOK (env : ApiEnv)
    (sm : StageManager) (h : stageOK sm) :
    stageOK (handle_update_confirmation_correct env sm).sm := by
  unfold handle_update_confirmation_correct
  try dsimp only
  repeat' split
  all_goals first
    | exact h
    | exact execute_ticket_update_stageOK _ _ _ _ h

theorem handle_update_confirmation_wrong_stageOK (sm : StageManager)
    (h : stageOK sm) : stageOK (handle_update_confirmation_wrong sm).sm := by
  unfold handle_update_confirmation_wrong
  try dsimp only
  repeat' split
  all_goals first
    | exact h
    | exact stageOK_switch _ _ (stageOK_store _ _ h)

theorem handle_edit_confirmation_stage_stageOK (env : ApiEnv)
    (sm : StageManager) (resp : Resp) (summary : String) (h : stageOK sm) :
    stageOK (handle_edit_confirmation_stage env sm resp summary).sm := by
  unfold handle_edit_confirmation_stage
  try dsimp only
  repeat' split
  all_goals first
    | exact h
    | exact stageOK_clear _ h
    | exact handle_update_confirmation_correct_stageOK _ _ h
    | exact handle_update_confirmation_wrong_stageOK _ h

theorem handle_main_stage_stageOK (env : ApiEnv) (sm : StageManager)
    (resp : Resp) (summary : String) (h : stageOK sm) :
    stageOK (handle_main_stage env sm resp summary).sm := by
  unfold handle_main_stage
  try dsimp only
  repeat' split
  all_goals first
    | exact h
    | { unfold stageOK
        rw [handle_create_stage_current]
        exact stageOK_switch _ _ h }
    | exact handle_edit_stage_stageOK _ _ _ _ (stageOK_switch _ _ h)

theorem handle_edit_stage_routing_stageOK (env : ApiEnv) (sm : StageManager)
    (resp : Resp) (summary : String) (h : stageOK sm) :
    stageOK (handle_edit_stage_routing env sm resp summary).sm := by
  unfold handle_edit_stage_routing
  try dsimp only
  repeat' split
  all_goals first
    | exact handle_edit_stage_stageOK _ _ _ _ h
    | exact stageOK_reset _

theorem routing_stageOK (fuel : Nat) :
    (∀ env sm upd summary, stageOK sm →
      stageOK (update_ticket_data_handler fuel env sm upd summary).sm) ∧
    (∀ env sm resp summary, stageOK sm →
      stageOK (handle_update_confirmation_stage fuel env sm resp summary).sm) ∧
    (∀ env sm resp summary, stageOK sm →
      stageOK (handle_confirmation_stage fuel env sm resp summary).sm) ∧
    (∀ env sm resp summary, stageOK sm →
      stageOK (handle_create_stage_routing fuel env sm resp summary).sm) := by
  induction fuel with
  | zero =>
    have h1 : ∀ env sm upd summary, stageOK sm →
        stageOK (update_ticket_data_handler 0 env sm upd summary).sm := by
      intro env sm upd summary h
      unfold update_ticket_data_handler
      repeat' split
      all_goals first
        | exact h
        | omega
    have h2 : ∀ env sm resp summary, stageOK sm →
        stageOK (handle_update_confirmation_stage 0 env sm resp summary).sm := by
      intro env sm resp summary h
      unfold handle_update_confirmation_stage
      repeat' split
      all_goals first
        | exact h
        | exact stageOK_reset _
        | exact h1 _ _ _ _ h
    have h3 : ∀ env sm resp summary, stageOK sm →
        stageOK (handle_confirmation_stage 0 env sm resp summary).sm := by
      intro env sm resp summary h
      unfold handle_confirmation_stage
      repeat' split
      all_goals first
        | exact h
        | exact stageOK_reset _
        | exact h2 _ _ _ _ (stageOK_switch _ _ h)
        | exact handle_correct_stage_stageOK _ _ _ _ (stageOK_switch _ _ h)
        | exact stageOK_clear _ (stageOK_switch _ _ h)
    have h4 : ∀ env sm resp summary, stageOK sm →
        stageOK (handle_create_stage_routing 0 env sm resp summary).sm := by
      intro env sm resp summary h
      have hc : stageOK (handle_create_stage resp summary sm).sm := by
        unfold stageOK
        rw [handle_create_stage_current]
        exact h
      unfold handle_create_stage_routing
      try dsimp only
      repeat' split
      all_goals first
        | exact hc
        | exact stageOK_reset _
        | exact h3 _ _ _ _ (stageOK_switch _ _ hc)
        | exact stageOK_switch _ _ hc
    exact ⟨h1, h2, h3, h4⟩
  | succ f ih =>
    have h1 : ∀ env sm upd summary, stageOK sm →
        stageOK (update_ticket_data_handler (f + 1) env sm upd summary).sm := by
      intro env sm upd summary h
      unfold update_ticket_data_handler
      try dsimp only
      repeat' split
      all_goals first
        | exact h
        | exact ih.2.2.2 _ _ _ _ (stageOK_switch _ _ (stageOK_store _ _ h))
    have h2 : ∀ env sm resp summary, stageOK sm →
        stageOK (handle_update_confirmation_stage (f + 1) env sm resp summary).sm := by
      intro env sm resp summary h
      unfold handle_update_confirmation_stage
      repeat' split
      all_goals first
        | exact h
        | exact stageOK_reset _
        | exact h1 _ _ _ _ h
    have h3 : ∀ env sm resp summary, stageOK sm →
        stageOK (handle_confirmation_stage (f + 1) env sm resp summary).sm := by
      intro env sm resp summary h
      unfold handle_confirmation_stage
      repeat' split
      all_goals first
        | exact h
        | exact stageOK_reset _
        | exact h2 _ _ _ _ (stageOK_switch _ _ h)
        | exact handle_correct_stage_stageOK _ _ _ _ (stageOK_switch _ _ h)
        | exact stageOK_clear _ (stageOK_switch _ _ h)
    have h4 : ∀ env sm resp summary, stageOK sm →
        stageOK (handle_create_stage_routing (f + 1) env sm resp summary).sm := by
      intro env sm resp summary h
      have hc : stageOK (handle_create_stage resp summary sm).sm := by
        unfold stageOK
        rw [handle_create_stage_current]
        exact h
      unfold handle_create_stage_routing
      try dsimp only
      repeat' split
      all_goals first
        | exact hc
        | exact stageOK_reset _
        | exact h3 _ _ _ _ (stageOK_switch _ _ hc)
        | exact stageOK_switch _ _ hc
    exact ⟨h1, h2, h3, h4⟩

theorem route_to_stage_stageOK (fuel : Nat) (env : ApiEnv)
    (sm : StageManager) (resp : Resp) (summary : String) (h : stageOK sm) :
    stageOK (route_to_stage fuel env sm resp summary).sm := by
  unfold route_to_stage
  repeat' split
  · exact handle_main_stage_stageOK _ _ _ _ h
  · exact (routing_stageOK fuel).2.2.2 _ _ _ _ h
  · exact handle_edit_stage_routing_stageOK _ _ _ _ h
  · exact (routing_stageOK fuel).2.2.1 _ _ _ _ h
  · exact (routing_stageOK fuel).2.1 _ _ _ _ h
  · exact handle_correct_stage_stageOK _ _ _ _ h
  · exact handle_single_ci_data_stage_stageOK _ _ _ _ h
  · exact handle_multiple_ci_data_stage_stageOK _ _ _ _ h
  · exact handle_updating_ticket_stage_stageOK _ _ _ h
  · exact handle_edit_confirmation_stage_stageOK _ _ _ _ h
  · exact h

end TicketBot

namespace TicketBot

theorem route_dispatch_main (fuel : Nat) (env : ApiEnv) (sm : StageManager)
    (resp : Resp) (summary : String) (h : sm.current_stage = "main") :
    route_to_stage fuel env sm resp summary =
      handle_main_stage env sm resp summary := by
  simp [route_to_stage, h]

theorem route_dispatch_create (fuel : Nat) (env : ApiEnv) (sm : StageManager)
    (resp : Resp) (summary : String) (h : sm.current_stage = "create") :
    route_to_stage fuel env sm resp summary =
      handle_create_stage_routing fuel env sm resp summary := by
  simp [route_to_stage, h]

theorem route_dispatch_edit (fuel : Nat) (env : ApiEnv) (sm : StageManager)
    (resp : Resp) (summary : String) (h : sm.current_stage = "edit") :
    route_to_stage fuel env sm resp summary =
      handle_edit_stage_routing env sm resp summary := by
  simp [route_to_stage, h]

theorem route_dispatch_confirmation (fuel : Nat) (env : ApiEnv)
    (sm : StageManager) (resp : Resp) (summary : String)
    (h : sm.current_stage = "confirmation") :
    route_to_stage fuel env sm resp summary =
      handle_confirmation_stage fuel env sm resp summary := by
  simp [route_to_stage, h]

theorem route_dispatch_update_confirmation (fuel : Nat) (env : ApiEnv)
    (sm : StageManager) (resp : Resp) (summary : String)
    (h : sm.current_stage = "update_confirmation") :
    route_to_stage fuel env sm resp summary =
      handle_update_confirmation_stage fuel env sm resp summary := by
  simp [route_to_stage, h]

theorem route_dispatch_correct (fuel : Nat) (env : ApiEnv)
    (sm : StageManager) (resp : Resp) (summary : String)
    (h : sm.current_stage = "correct") :
    route_to_stage fuel env sm resp summary =
      handle_correct_stage env sm resp summary := by
  simp [route_to_stage, h]

theorem route_dispatch_one_ci (fuel : Nat) (env : ApiEnv)
    (sm : StageManager) (resp : Resp) (summary : String)
    (h : sm.current_stage = "1_ci_data") :
    route_to_stage fuel env sm resp summary =
      handle_single_ci_data_stage env sm resp summary := by
  simp [route_to_stage, h]

theorem route_dispatch_multiple_ci (fuel : Nat) (env : ApiEnv)
    (sm : StageManager) (resp : Resp) (summary : String)
    (h : sm.current_stage = "multiple_ci_data") :
    route_to_stage fuel env sm resp summary =
      handle_multiple_ci_data_stage env sm resp summary := by
  simp [route_to_stage, h]

theorem route_dispatch_updating (fuel : Nat) (env : ApiEnv)
    (sm : StageManager) (resp : Resp) (summary : String)
    (h : sm.current_stage = "updating_ticket") :
    route_to_stage fuel env sm resp summary =
      handle_updating_ticket_stage sm resp summary := by
  simp [route_to_stage, h]

theorem route_dispatch_edit_confirmation (fuel : Nat) (env : ApiEnv)
    (sm : StageManager) (resp : Resp) (summary : String)
    (h : sm.current_stage = "edit_confirmation") :
    route_to_stage fuel env sm resp summary =
      handle_edit_confirmation_stage env sm resp summary := by
  simp [route_to_stage, h]

end TicketBot

namespace TicketBot

theorem routeExit_main (fuel : Nat) (env : ApiEnv) (sm : StageManager)
    (resp : Resp) (h : sm.current_stage = "main") :
    route_to_stage fuel env sm resp "thoát" = ⟨sm, resp, "thoát"⟩ := by
  rw [route_dispatch_main _ _ _ _ _ h]
  simp [handle_main_stage]

theorem routeExit_create (fuel : Nat) (env : ApiEnv) (sm : StageManager)
    (resp : Resp) (h : sm.current_stage = "create") :
    route_to_stage fuel env sm resp "thoát" =
      ⟨reset_to_main sm, .s createExitMsg, "thoát"⟩ := by
  rw [route_dispatch_create _ _ _ _ _ h]
  simp [handle_create_stage_routing, handle_create_stage]

theorem routeExit_edit (fuel : Nat) (env : ApiEnv) (sm : StageManager)
    (t : String) (h : sm.current_stage = "edit") :
    route_to_stage fuel env sm (.s t) "thoát" =
      ⟨reset_to_main sm, .s t, "thoát"⟩ := by
  rw [route_dispatch_edit _ _ _ _ _ h]
  simp [handle_edit_stage_routing, handle_edit_stage]

theorem routeExit_confirmation (fuel : Nat) (env : ApiEnv) (sm : StageManager)
    (resp : Resp) (h : sm.current_stage = "confirmation") :
    (route_to_stage fuel env sm resp "thoát").summary = "thoát" ∧
    (route_to_stage fuel env sm resp "thoát").sm.current_stage = "main" ∧
    (route_to_stage fuel env sm resp "thoát").sm.pending_ticket_data = none ∧
    (route_to_stage fuel env sm resp "thoát").sm.pending_ci_data = none := by
  rw [route_dispatch_confirmation _ _ _ _ _ h]
  cases resp with
  | s t =>
    simp [handle_confirmation_stage, reset_to_main, clear_ci_data,
      clear_ticket_data]
    all_goals rfl
  | d m =>
    simp [handle_confirmation_stage, handle_update_confirmation_stage,
      reset_to_main, clear_ci_data, clear_ticket_data]
    all_goals rfl

theorem routeExit_update_confirmation (fuel : Nat) (env : ApiEnv)
    (sm : StageManager) (resp : Resp)
    (h : sm.current_stage = "update_confirmation") :
    route_to_stage fuel env sm resp "thoát" =
      ⟨reset_to_main sm, resp, "thoát"⟩ := by
  rw [route_dispatch_update_confirmation _ _ _ _ _ h]
  simp [handle_update_confirmation_stage]

theorem routeExit_correct (fuel : Nat) (env : ApiEnv) (sm : StageManager)
    (resp : Resp) (h : sm.current_stage = "correct") :
    route_to_stage fuel env sm resp "thoát" =
      ⟨reset_to_main sm, resp, "thoát"⟩ := by
  rw [route_dispatch_correct _ _ _ _ _ h]
  simp [handle_correct_stage]

theorem routeExit_one_ci (fuel : Nat) (env : ApiEnv) (sm : StageManager)
    (resp : Resp) (h : sm.current_stage = "1_ci_data") :
    route_to_stage fuel env sm resp "thoát" =
      ⟨reset_to_main sm, resp, "thoát"⟩ := by
  rw [route_dispatch_one_ci _ _ _ _ _ h]
  simp [handle_single_ci_data_stage]

theorem routeExit_multiple_ci (fuel : Nat) (env : ApiEnv) (sm : StageManager)
    (resp : Resp) (h : sm.current_stage = "multiple_ci_data") :
    route_to_stage fuel env sm resp "thoát" =
      ⟨reset_to_main sm, resp, "thoát"⟩ := by
  rw [route_dispatch_multiple_ci _ _ _ _ _ h]
  simp [handle_multiple_ci_data_stage]

theorem routeExit_updating (fuel : Nat) (env : ApiEnv) (sm : StageManager)
    (t : String) (h : sm.current_stage = "updating_ticket") :
    route_to_stage fuel env sm (.s t) "thoát" = ⟨sm, .s t, "thoát"⟩ := by
  rw [route_dispatch_updating _ _ _ _ _ h]
  simp [handle_updating_ticket_stage]

theorem routeExit_edit_confirmation (fuel : Nat) (env : ApiEnv)
    (sm : StageManager) (resp : Resp)
    (h : sm.current_stage = "edit_confirmation") :
    route_to_stage fuel env sm resp "thoát" =
      ⟨sm, .s editConfirmReprompt, "ch·ªù x√°c nh·∫≠n c·∫≠p nh·∫≠t edit"⟩ := by
  rw [route_dispatch_edit_confirmation _ _ _ _ _ h]
  simp [handle_edit_confirmation_stage]

end TicketBot

namespace TicketBot

/-- Claim C4 (corrected).  The exit label "thoát" ends the conversation
loop and clears both pending records only from the create-flow stages:
create, confirmation, update_confirmation, correct, 1_ci_data and
multiple_ci_data reset the session to main, clearing pendingTicket and
pendingConfigItems, and so does edit for a plain-text reply — there by
pass-through, since edit.py's own exit branch compares against a
double-encoded literal and is dead, and the router's edit-stage wrapper
performs the reset.  From main the label ends the loop but clears
nothing.  In updating_ticket (plain-text reply) the label passes
through unchanged: the loop ends but nothing at all is cleared.  In
edit_confirmation the exit label is not even recognized: the handler
returns its re-prompt with the waiting label, nothing is cleared, and
the loop does not end. -/
theorem claim_C4_exit_universal_amended (fuel : Nat) (env : ApiEnv)
    (sm : StageManager) (resp : Resp) (t : String) :
    (sm.current_stage ∈ ["create", "confirmation", "update_confirmation",
        "correct", "1_ci_data", "multiple_ci_data"] →
      (route_to_stage fuel env sm resp "thoát").summary = "thoát" ∧
      (route_to_stage fuel env sm resp "thoát").sm.current_stage = "main" ∧
      (route_to_stage fuel env sm resp "thoát").sm.pending_ticket_data =
        none ∧
      (route_to_stage fuel env sm resp "thoát").sm.pending_ci_data = none) ∧
    (sm.current_stage = "edit" →
      route_to_stage fuel env sm (.s t) "thoát" =
        ⟨reset_to_main sm, .s t, "thoát"⟩) ∧
    (sm.current_stage = "main" →
      route_to_stage fuel env sm resp "thoát" = ⟨sm, resp, "thoát"⟩) ∧
    (sm.current_stage = "updating_ticket" →
      route_to_stage fuel env sm (.s t) "thoát" = ⟨sm, .s t, "thoát"⟩) ∧
    (sm.current_stage = "edit_confirmation" →
      route_to_stage fuel env sm resp "thoát" =
        ⟨sm, .s editConfirmReprompt, "ch·ªù x√°c nh·∫≠n c·∫≠p nh·∫≠t edit"⟩ ∧
      (route_to_stage fuel env sm resp "thoát").summary ≠ "thoát") := by
  refine ⟨?_, fun he => routeExit_edit fuel env sm t he,
    fun hm => routeExit_main fuel env sm resp hm,
    fun hu => routeExit_updating fuel env sm t hu, fun hc => ?_⟩
  · intro hmem
    simp only [List.mem_cons, List.not_mem_nil, or_false] at hmem
    rcases hmem with h | h | h | h | h | h
    · rw [routeExit_create fuel env sm resp h]
      exact ⟨rfl, rfl, rfl, rfl⟩
    · exact routeExit_confirmation fuel env sm resp h
    · rw [routeExit_update_confirmation fuel env sm resp h]
      exact ⟨rfl, rfl, rfl, rfl⟩
    · rw [routeExit_correct fuel env sm resp h]
      exact ⟨rfl, rfl, rfl, rfl⟩
    · rw [routeExit_one_ci fuel env sm resp h]
      exact ⟨rfl, rfl, rfl, rfl⟩
    · rw [routeExit_multiple_ci fuel env sm resp h]
      exact ⟨rfl, rfl, rfl, rfl⟩
  · constructor
    · exact routeExit_edit_confirmation fuel env sm resp hc
    · rw [routeExit_edit_confirmation fuel env sm resp hc]
      show ("ch·ªù x√°c nh·∫≠n c·∫≠p nh·∫≠t edit" : String) ≠ "thoát"
      decide

/-- Claim C4, counterexample to the claim as stated: in updating_ticket
with both pending records stored, the exit label passes through without
clearing anything; and in edit_confirmation the exit label does not
even end the loop (the returned label is not "thoát"). -/
theorem claim_C4_counterexample :
    (route_to_stage 1 wEnvNone wSmUpdating (.s "bye") "thoát").sm =
      wSmUpdating ∧
    wSmUpdating.pending_ticket_data ≠ none ∧
    wSmUpdating.pending_ci_data ≠ none ∧
    (route_to_stage 1 wEnvNone wSmEditConf (.s "bye") "thoát").summary ≠
      "thoát" := by
  refine ⟨?_, by decide, by decide, ?_⟩
  · rw [routeExit_updating 1 wEnvNone wSmUpdating "bye" rfl]
  · rw [routeExit_edit_confirmation 1 wEnvNone wSmEditConf (.s "bye") rfl]
    decide

/-- Claim C4, witness: the amended theorem applied at concrete
updating_ticket and confirmation sessions. -/
theorem claim_C4_witness :
    route_to_stage 2 wEnvNone wSmUpdating (.s "x") "thoát" =
      ⟨wSmUpdating, .s "x", "thoát"⟩ ∧
    (route_to_stage 2 wEnvNone wSmConf (.s "x") "thoát").sm.current_stage =
      "main" := by
  have h1 := claim_C4_exit_universal_amended 2 wEnvNone wSmUpdating
    (.s "x") "x"
  have h2 := claim_C4_exit_universal_amended 2 wEnvNone wSmConf (.s "x") "x"
  exact ⟨h1.2.2.2.1 rfl, (h2.1 (by decide)).2.1⟩

/-- Claim C3 (confirmed).  For every (current stage, intent label) pair —
the label and the payload are arbitrary, so unrecognized labels are
included — routing leaves the session's current stage inside the fixed
StageId set: it is never left undefined or set to a name outside the
set. -/
theorem claim_C3_stage_always_valid (fuel : Nat) (env : ApiEnv)
    (sm : StageManager) (resp : Resp) (summary : String)
    (h : sm.current_stage ∈ validStages) :
    (route_to_stage fuel env sm resp summary).sm.current_stage ∈
      validStages :=
  route_to_stage_stageOK fuel env sm resp summary h

/-- Claim C3, witness: the theorem applied at a concrete session in the
confirmation stage with an unrecognized label. -/
theorem claim_C3_witness :
    (route_to_stage 3 wEnvNone wSmConf (.s "hi")
      "nonsense-label").sm.current_stage ∈ validStages :=
  claim_C3_stage_always_valid 3 wEnvNone wSmConf (.s "hi") "nonsense-label"
    (by decide)

/-- Claim C1 (corrected).  When the dispatched stage handler raises,
`route_to_stage` catches the exception and returns the generic apology
with summary "error" — no exception escapes the Router, which is total —
but it performs NO fail-safe reset: the session is left exactly as the
handler left it (the stage is not forced back to main and pendingTicket
is not cleared). -/
theorem claim_C1_catch_without_reset (e : PyExn)
    (smAtRaise : StageManager) :
    route_to_stage_tryexcept (.error (e, smAtRaise)) =
      ⟨smAtRaise, .s (routeErrorReply e), "error"⟩ := rfl

/-- Claim C1, counterexample to the claim as stated: a handler that
raises while the session is in the confirmation stage with a pending
ticket leaves the session in the confirmation stage with the pending
ticket still stored — the stage is not forced back to main and
pendingTicket is not cleared. -/
theorem claim_C1_counterexample :
    (route_to_stage_tryexcept (.error (⟨"boom"⟩, wSmConf))).sm = wSmConf ∧
    (route_to_stage_tryexcept
      (.error (⟨"boom"⟩, wSmConf))).sm.current_stage ≠ "main" ∧
    (route_to_stage_tryexcept
      (.error (⟨"boom"⟩, wSmConf))).sm.pending_ticket_data ≠ none := by
  refine ⟨rfl, ?_, ?_⟩ <;> decide

/-- Claim C2 (code_bug).  In the `correct` stage, when the serial
resolves to exactly one ConfigItem and that ConfigItem has no tickets at
all (`getTicketsBySerial` returns an empty list, so no active ticket
exists), the handler does not create the ticket — even though creation
would succeed — but returns the generic creation-error message and the
exit label, contradicting the source's own comment "No existing tickets
- create new one". -/
theorem claim_C2_single_ci_no_tickets_bug :
    process_ticket_creation wEnvOneCiNoTickets wTicketData wSmCorrect =
      ⟨wSmCorrect, .s ticketCreationErrorMsg, "thoát"⟩ ∧
    route_to_stage 1 wEnvOneCiNoTickets wSmCorrect (.s "x") "đang xử lý" =
      ⟨wSmCorrect, .s ticketCreationErrorMsg, "thoát"⟩ ∧
    wEnvOneCiNoTickets.post_create_ticket "48917912" "máy in hỏng" =
      some "2709474" := by
  refine ⟨rfl, ?_, rfl⟩
  rw [route_dispatch_correct _ _ _ _ _ rfl]
  rfl

/-- Claim C9 (confirmed).  From the confirmation stage, the "sai"
(wrong) label with a plain-text reply always clears pendingTicket and
lands the session in the create stage; applying the same label again
from the resulting state changes nothing (the second pass finds no
stored data and re-prompts), so the operation is idempotent on the
session state. -/
theorem claim_C9_wrong_idempotent (fuel fuel2 : Nat) (env : ApiEnv)
    (sm : StageManager) (t t2 : String)
    (h : sm.current_stage = "confirmation") :
    (route_to_stage fuel env sm (.s t) "sai").sm.current_stage = "create" ∧
    (route_to_stage fuel env sm (.s t) "sai").sm.pending_ticket_data = none ∧
    route_to_stage fuel2 env (route_to_stage fuel env sm (.s t) "sai").sm
        (.s t2) "sai" =
      ⟨(route_to_stage fuel env sm (.s t) "sai").sm, .s noTicketDataPrompt,
       "tạo ticket"⟩ := by
  have h1 : route_to_stage fuel env sm (.s t) "sai" =
      ⟨clear_ticket_data (switch_stage sm "create").1, .s t, "tạo ticket"⟩ := by
    rw [route_dispatch_confirmation _ _ _ _ _ h]
    simp [handle_confirmation_stage]
  rw [h1]
  have hcur : (clear_ticket_data (switch_stage sm "create").1).current_stage
      = "create" := rfl
  have hstored : get_stored_ticket_data
      (clear_ticket_data (switch_stage sm "create").1) = none := rfl
  refine ⟨hcur, rfl, ?_⟩
  rw [route_dispatch_create _ _ _ _ _ hcur]
  simp [handle_create_stage_routing, handle_create_stage,
    handle_confirmation_wrong, hstored]

/-- Claim C9, witness: the theorem applied at a concrete confirmation
session with a stored pending ticket. -/
theorem claim_C9_witness :
    (route_to_stage 2 wEnvNone wSmConf (.s "a") "sai").sm.current_stage =
      "create" ∧
    (route_to_stage 2 wEnvNone wSmConf (.s "a") "sai").sm.pending_ticket_data
      = none ∧
    route_to_stage 2 wEnvNone
        (route_to_stage 2 wEnvNone wSmConf (.s "a") "sai").sm (.s "b") "sai" =
      ⟨(route_to_stage 2 wEnvNone wSmConf (.s "a") "sai").sm,
       .s noTicketDataPrompt, "tạo ticket"⟩ :=
  claim_C9_wrong_idempotent 2 2 wEnvNone wSmConf "a" "b" rfl

end TicketBot

namespace TicketBot

/-- Claim C10 (confirmed).  In the create stage, a payload whose three
required fields are all non-empty after trimming but whose serial number
is shorter than 3 characters is rejected by the business-rule check: the
handler returns the fixed "serial number too short" re-prompt with label
"tạo ticket", stores nothing (the session state is returned unchanged,
so there is no pendingTicket and no advance toward confirmation). -/
theorem claim_C10_short_serial_rejected (fuel : Nat) (env : ApiEnv)
    (sm : StageManager) (m : FieldMap) (h : sm.current_stage = "create")
    (hcomplete : (validate_ticket_data (normalize_ticket_data m)).1 = true)
    (hshort : (pyStrip (fmGet m "serial_number")).length < 3) :
    route_to_stage fuel env sm (.d m) "tạo ticket" =
      ⟨sm, .s serialTooShortMsg, "tạo ticket"⟩ := by
  rw [route_dispatch_create _ _ _ _ _ h]
  have hser : dGetStr (normalize_ticket_data m) "serial_number" "" =
      pyStrip (fmGet m "serial_number") := rfl
  simp [handle_create_stage_routing, handle_create_stage,
    process_ticket_data, hcomplete, handle_complete_ticket_data,
    validate_business_rules, hser, hshort]

/-- Claim C10, witness: a concrete payload with a two-character serial
number and both other fields filled is rejected with the fixed
re-prompt. -/
theorem claim_C10_witness :
    route_to_stage 1 wEnvNone wSmCreate
        (.d [("serial_number", "12"), ("device_type", "máy in"),
             ("problem_description", "hỏng")]) "tạo ticket" =
      ⟨wSmCreate, .s serialTooShortMsg, "tạo ticket"⟩ :=
  claim_C10_short_serial_rejected 1 wEnvNone wSmCreate
    [("serial_number", "12"), ("device_type", "máy in"),
     ("problem_description", "hỏng")] rfl (by decide) (by decide)

/-- Claim C8 (confirmed).  Completeness validation judges a ticket
dictionary complete exactly when serial number, device type and problem
description are all non-empty after trimming; a payload with an empty
serial number is incomplete with missing list ["serial_number"], a
payload with all three filled is complete, and in the create stage the
incomplete payload produces the re-prompt naming the missing field by
its Vietnamese display name ("S/N hoặc ID thiết bị") while the session
state (and so the create stage) is unchanged. -/
theorem claim_C8_completeness_gate (fuel : Nat) (env : ApiEnv)
    (sm : StageManager) (d : PyDict) (h : sm.current_stage = "create") :
    ((validate_ticket_data d).1 = true ↔
      ((pyStrip (dGetStr d "serial_number" "")).isEmpty = false ∧
       (pyStrip (dGetStr d "device_type" "")).isEmpty = false ∧
       (pyStrip (dGetStr d "problem_description" "")).isEmpty = false)) ∧
    validate_ticket_data
        [("serial_number", .str ""), ("device_type", .str "máy in"),
         ("problem_description", .str "hỏng")] =
      (false, ["serial_number"]) ∧
    validate_ticket_data
        [("serial_number", .str "123"), ("device_type", .str "máy in"),
         ("problem_description", .str "hỏng")] =
      (true, []) ∧
    route_to_stage fuel env sm
        (.d [("serial_number", ""), ("device_type", "máy in"),
             ("problem_description", "hỏng")]) "tạo ticket" =
      ⟨sm,
       .s ("Thông tin ticket còn thiếu: S/N hoặc ID thiết bị. " ++
           "Vui lòng cung cấp thêm thông tin."),
       "tạo ticket"⟩ := by
  refine ⟨?_, by decide, by decide, ?_⟩
  · by_cases h1 : (pyStrip (dGetStr d "serial_number" "")).isEmpty <;>
      by_cases h2 : (pyStrip (dGetStr d "device_type" "")).isEmpty <;>
        by_cases h3 : (pyStrip (dGetStr d "problem_description" "")).isEmpty <;>
          simp [validate_ticket_data, REQUIRED_TICKET_FIELDS, h1, h2, h3]
  · rw [route_dispatch_create _ _ _ _ _ h]
    have hc : handle_create_stage
        (.d [("serial_number", ""), ("device_type", "máy in"),
             ("problem_description", "hỏng")]) "tạo ticket" sm =
        ⟨sm,
         .s ("Thông tin ticket còn thiếu: S/N hoặc ID thiết bị. " ++
             "Vui lòng cung cấp thêm thông tin."),
         "tạo ticket"⟩ := rfl
    simp [handle_create_stage_routing, hc]

/-- Claim C8, witness: the theorem applied at a concrete create-stage
session and a concrete dictionary. -/
theorem claim_C8_witness :
    ((validate_ticket_data wTicketData).1 = true ↔
      ((pyStrip (dGetStr wTicketData "serial_number" "")).isEmpty = false ∧
       (pyStrip (dGetStr wTicketData "device_type" "")).isEmpty = false ∧
       (pyStrip (dGetStr wTicketData "problem_description" "")).isEmpty =
         false)) ∧
    validate_ticket_data
        [("serial_number", .str ""), ("device_type", .str "máy in"),
         ("problem_description", .str "hỏng")] =
      (false, ["serial_number"]) ∧
    validate_ticket_data
        [("serial_number", .str "123"), ("device_type", .str "máy in"),
         ("problem_description", .str "hỏng")] =
      (true, []) ∧
    route_to_stage 1 wEnvNone wSmCreate
        (.d [("serial_number", ""), ("device_type", "máy in"),
             ("problem_description", "hỏng")]) "tạo ticket" =
      ⟨wSmCreate,
       .s ("Thông tin ticket còn thiếu: S/N hoặc ID thiết bị. " ++
           "Vui lòng cung cấp thêm thông tin."),
       "tạo ticket"⟩ :=
  claim_C8_completeness_gate 1 wEnvNone wSmCreate wTicketData rfl

end TicketBot

namespace TicketBot

theorem apiAttemptLoop_retry_step {α : Type} (oracle : Nat → HttpOutcome α)
    (mr attempt : Nat) (rest : List Nat)
    (h : (oracle attempt).isTransientFailure = true) (hlt : attempt < mr) :
    apiAttemptLoop oracle true mr (attempt :: rest) =
      ((apiAttemptLoop oracle true mr rest).1,
       (apiAttemptLoop oracle true mr rest).2.1 + 1,
       RETRY_DELAY * (attempt + 1) ::
         (apiAttemptLoop oracle true mr rest).2.2) := by
  cases ho : oracle attempt <;>
    simp [HttpOutcome.isTransientFailure, ho] at h ⊢ <;>
      simp [apiAttemptLoop, ho, hlt, h]

theorem apiAttemptLoop_exhausted {α : Type} (oracle : Nat → HttpOutcome α)
    (mr attempt : Nat) (rest : List Nat)
    (h : (oracle attempt).isTransientFailure = true) (hge : ¬attempt < mr) :
    apiAttemptLoop oracle true mr (attempt :: rest) = (none, 1, []) := by
  cases ho : oracle attempt <;>
    simp [HttpOutcome.isTransientFailure, ho] at h ⊢ <;>
      simp [apiAttemptLoop, ho, hge, h]

theorem apiAttemptLoop_attempts_le {α : Type} (oracle : Nat → HttpOutcome α)
    (supported : Bool) (mr : Nat) (l : List Nat) :
    (apiAttemptLoop oracle supported mr l).2.1 ≤ l.length := by
  induction l with
  | nil => simp [apiAttemptLoop]
  | cons a rest ih =>
    show (apiAttemptLoop oracle supported mr (a :: rest)).2.1 ≤ rest.length + 1
    unfold apiAttemptLoop
    split
    · simp
    · split <;> repeat' split
      all_goals simp_all

/-- Claim C5 (corrected).  `make_api_request` retries transient failures
(timeout, connection error, request exception, any status other than
200 and 404), sleeping 1s, 2s, 3s between attempts, but it makes up to
FOUR attempts in total (`range(max_retries + 1)` with `max_retries = 3`:
one initial attempt plus 3 retries), not three; after the bound is
exhausted it gives up and returns None, and no run ever makes more than
4 attempts, so a single turn cannot retry unboundedly. -/
theorem claim_C5_retry_bound (α : Type) (oracle : Nat → HttpOutcome α)
    (h : ∀ i, (oracle i).isTransientFailure = true) :
    make_api_request oracle "GET" MAX_RETRY_ATTEMPTS = (none, 4, [1, 2, 3]) ∧
    (∀ oracle2 : Nat → HttpOutcome α, ∀ method : String,
      (make_api_request oracle2 method MAX_RETRY_ATTEMPTS).2.1 ≤ 4) := by
  constructor
  · have hrange : List.range (MAX_RETRY_ATTEMPTS + 1) = [0, 1, 2, 3] := rfl
    have hsupp : methodSupported "GET" = true := rfl
    unfold make_api_request
    rw [hrange, hsupp]
    rw [apiAttemptLoop_retry_step oracle _ 0 _ (h 0) (by decide),
      apiAttemptLoop_retry_step oracle _ 1 _ (h 1) (by decide),
      apiAttemptLoop_retry_step oracle _ 2 _ (h 2) (by decide),
      apiAttemptLoop_exhausted oracle _ 3 _ (h 3) (by decide)]
    rfl
  · intro oracle2 method
    have := apiAttemptLoop_attempts_le oracle2 (methodSupported method)
      MAX_RETRY_ATTEMPTS (List.range (MAX_RETRY_ATTEMPTS + 1))
    simpa [make_api_request] using this

/-- Claim C5, counterexample to the claim as stated: a permanently
failing endpoint (HTTP 500 on every attempt) is retried with sleeps of
1s, 2s and 3s, but the total number of attempts is 4, not 3. -/
theorem claim_C5_counterexample :
    (make_api_request (fun _ => HttpOutcome.status 500 (0 : Nat)) "GET"
      MAX_RETRY_ATTEMPTS).2.1 = 4 ∧
    ¬((make_api_request (fun _ => HttpOutcome.status 500 (0 : Nat)) "GET"
      MAX_RETRY_ATTEMPTS).2.1 = 3) ∧
    (make_api_request (fun _ => HttpOutcome.status 500 (0 : Nat)) "GET"
      MAX_RETRY_ATTEMPTS).2.2 = [1, 2, 3] ∧
    (make_api_request (fun _ => HttpOutcome.status 500 (0 : Nat)) "GET"
      MAX_RETRY_ATTEMPTS).1 = none := by
  refine ⟨rfl, by decide, rfl, rfl⟩

/-- Claim C5, witness: the theorem applied at the concrete
always-HTTP-500 oracle. -/
theorem claim_C5_witness :
    make_api_request (fun _ => HttpOutcome.status 500 (0 : Nat)) "GET"
      MAX_RETRY_ATTEMPTS = (none, 4, [1, 2, 3]) :=
  (claim_C5_retry_bound Nat (fun _ => HttpOutcome.status 500 0)
    (fun _ => rfl)).1

/-- Claim C7 (corrected).  A 404 from the CI lookup is treated as "not
found", is not retried (exactly one attempt, no sleep), and the lookup
never raises — but `get_ci_with_sn` returns None in that case, not the
empty list the claim states (the empty list only appears when the
remote answers 200 with an empty array; callers such as
`check_ticket_on_database` convert the None to an empty list
themselves). -/
theorem claim_C7_not_found_none (oracle : Nat → HttpOutcome CiBody)
    (b : CiBody) (serial : String) (h404 : oracle 0 = .status 404 b)
    (hserial : (pyStrip serial).isEmpty = false) :
    get_ci_with_sn oracle true serial = (none, 1, []) := by
  have hrange : List.range (MAX_RETRY_ATTEMPTS + 1) = 0 :: [1, 2, 3] := rfl
  have hsupp : methodSupported "GET" = true := rfl
  unfold get_ci_with_sn make_api_request
  rw [hrange, hsupp]
  simp [apiAttemptLoop, h404, hserial]

/-- Claim C7, counterexample to the claim as stated: on a 404 the lookup
returns None after a single attempt — not the empty list. -/
theorem claim_C7_counterexample :
    get_ci_with_sn (fun _ => HttpOutcome.status 404 CiBody.other) true
      "48917912" = (none, 1, []) ∧
    (get_ci_with_sn (fun _ => HttpOutcome.status 404 CiBody.other) true
      "48917912").1 ≠ some [] := by
  refine ⟨rfl, by decide⟩

/-- Claim C7, witness: the theorem applied at a concrete 404 oracle. -/
theorem claim_C7_witness :
    get_ci_with_sn (fun _ => HttpOutcome.status 404 CiBody.other) true
      "48917912" = (none, 1, []) :=
  claim_C7_not_found_none (fun _ => HttpOutcome.status 404 CiBody.other)
    CiBody.other "48917912" rfl (by decide)

end TicketBot

namespace TicketBot

/-- Claim C6 (code_bug).  In the edit_confirmation stage, the intent
label "đúng" — the spelling configuration/config.py instructs the
classifier to emit, and the one the claim and the spec name — never
matches edit.py's double-encoded literal "ƒë√∫ng", so the handler falls
into its fallback branch: it returns the re-prompt with the waiting
label and leaves the session unchanged, and `post_update_ticket` is
never called (the outcome is identical whether the update gateway would
succeed or is entirely unavailable).  The claimed behaviour — call
Gateway.updateTicket with the stored ticketId and updateData, end the
loop on success, return to updating_ticket on failure — is therefore
unreachable on the label the system produces. -/
theorem claim_C6_mojibake_label_bug :
    route_to_stage 1 wEnvUpdateOk wSmEditConf (.s "x") "đúng" =
      ⟨wSmEditConf, .s editConfirmReprompt,
       "ch·ªù x√°c nh·∫≠n c·∫≠p nh·∫≠t edit"⟩ ∧
    route_to_stage 1 wEnvNone wSmEditConf (.s "x") "đúng" =
      route_to_stage 1 wEnvUpdateOk wSmEditConf (.s "x") "đúng" ∧
    ("đúng" == "ƒë√∫ng") = false := by
  refine ⟨?_, ?_, by decide⟩
  · rw [route_dispatch_edit_confirmation 1 wEnvUpdateOk wSmEditConf (.s "x")
      "đúng" rfl]
    simp [handle_edit_confirmation_stage]
  · rw [route_dispatch_edit_confirmation 1 wEnvNone wSmEditConf (.s "x")
      "đúng" rfl,
      route_dispatch_edit_confirmation 1 wEnvUpdateOk wSmEditConf (.s "x")
      "đúng" rfl]
    simp [handle_edit_confirmation_stage]

end TicketBot
